import Mathlib

/-!
Verification of the constraint-fix subsystem declared in lib/Sema/CSFix.h.

The C++ header is shallowly embedded as follows:

- swift::Type is a nullable smart pointer to a type node; it is modelled as
  CType, an Option over the inductive SType of type nodes. The null type
  (written Type() in C++) is none.
- ConstraintLocator, ConstraintSystem, declarations and identifiers are
  opaque to this file; they are modelled as wrapper structures carrying an
  identity. Raw C++ pointers to them are Option values (none is the null
  pointer).
- Each C++ class deriving from ConstraintFix becomes a structure whose first
  field embeds the base-class subobject; the C++ constructor of the class
  becomes the function mkCtor in its namespace. A constructor whose body
  contains assert statements is modelled as returning an Option: a violated
  assertion aborts the process instead of producing a fix, which is
  modelled as none.
- Trailing-object storage (llvm::TrailingObjects) of a variable-length
  payload is modelled as a List field; the NumXs count field is the list
  length, and the getXs accessor returning an ArrayRef view returns that
  list.
- All data is immutable after construction in this embedding, mirroring the
  fact that the C++ classes expose no mutating member functions.
- Static factory functions (create, createWithOptionalResult, forRequirement,
  attempt, ...) are declared in the header but their bodies live in
  CSFix.cpp, which is not part of the sources under verification. Where a
  claim depends on a factory, the factory is modelled from the spec; each
  such definition carries a doc comment starting with the words Modelled
  from the spec.
-/

/-- Opaque handle for swift::constraints::ConstraintSystem. Fixes only store a
reference to it. -/
structure ConstraintSystem where
  sysId : Nat
deriving DecidableEq

/-- Opaque handle for swift::constraints::ConstraintLocator. A raw pointer to
it is modelled as an Option value. -/
structure ConstraintLocator where
  locId : Nat
deriving DecidableEq

/-- Opaque handle for swift::constraints::ConstraintLocatorBuilder. -/
structure ConstraintLocatorBuilder where
  locbId : Nat
deriving DecidableEq

/-- Opaque handle for swift::Identifier, an argument label. -/
structure Identifier where
  str : String
deriving DecidableEq

/-- Opaque handle for swift::DeclName. -/
structure DeclName where
  str : String
deriving DecidableEq

/-- Opaque handle for swift::VarDecl; its name is the one attribute read by
the code in this file (UseWrappedValue.usingStorageWrapper). -/
structure VarDecl where
  name : String
deriving DecidableEq

/-- Opaque handle for swift::ValueDecl. -/
structure ValueDecl where
  name : String
deriving DecidableEq

/-- Opaque handle for swift::ConstructorDecl. -/
structure ConstructorDecl where
  ctorId : Nat
deriving DecidableEq

/-- Opaque handle for swift::NominalTypeDecl. -/
structure NominalTypeDecl where
  nomId : Nat
deriving DecidableEq

/-- Opaque handle for a swift::GenericTypeParamType, identified by depth and
index as in the AST. -/
structure GenericTypeParamType where
  depth : Nat
  index : Nat
deriving DecidableEq

/-- Opaque handle for swift::SourceRange. -/
structure SourceRange where
  lo : Nat
  hi : Nat
deriving DecidableEq

/-- Opaque handle for swift::Stmt. -/
structure Stmt where
  stmtId : Nat
deriving DecidableEq

/-- Opaque handle for swift::Decl. -/
structure Decl where
  declId : Nat
deriving DecidableEq

/-- Model of llvm::PointerUnion of a statement and a declaration, used by
SkipUnhandledConstructInFunctionBuilder. -/
inductive UnhandledNode where
  | stmt (s : Stmt)
  | decl (d : Decl)

/-- Model of the swift type-node representation (swift::TypeBase). Only the
structure observed by CSFix.h is represented: tuple types, function types
with their throws bit, applications of a generic declaration to arguments,
type variables, and every other type as an opaque name. -/
inductive SType where
  | named (n : String)
  | typeVar (id : Nat)
  | tuple (elems : List SType)
  | func (throwsAttr : Bool) (param : SType) (result : SType)
  | boundGeneric (decl : String) (args : List SType)

mutual

/-- Structural equality test on type nodes (swift pointer equality of
canonical types is abstracted as structural equality of the model). -/
def SType.beq : SType → SType → Bool
  | .named a, .named b => a == b
  | .typeVar a, .typeVar b => a == b
  | .tuple xs, .tuple ys => SType.beqList xs ys
  | .func ta pa ra, .func tb pb rb => ta == tb && SType.beq pa pb && SType.beq ra rb
  | .boundGeneric da xs, .boundGeneric db ys => da == db && SType.beqList xs ys
  | _, _ => false

/-- Pointwise structural equality of type-node lists. -/
def SType.beqList : List SType → List SType → Bool
  | [], [] => true
  | x :: xs, y :: ys => SType.beq x y && SType.beqList xs ys
  | _, _ => false

end

/-- Test mirroring the C++ query is-BoundGenericType on a type node. -/
def SType.isBoundGeneric : SType → Bool
  | .boundGeneric _ _ => true
  | _ => false

/-- Model of swift::Type, a nullable pointer to a type node; Type() is none. -/
abbrev CType := Option SType

/-- Null-tolerant version of the is-BoundGenericType query on swift::Type.
In C++ the query is a dereference, so a null type aborts; callers below only
use this inside assertion conditions, where false and abort coincide
observably (no fix is produced either way). -/
def CType.isBoundGenericType : CType → Bool
  | some s => s.isBoundGeneric
  | none => false

/-- Model of swift::FunctionType (a non-null FunctionType pointer): only its
throws bit is read by CSFix.h. -/
structure FunctionTy where
  throwsAttr : Bool
  param : SType
  result : SType

/-- View of a function type as a type node, used when a FunctionType pointer
is passed where swift::Type is expected. -/
def FunctionTy.toSType (f : FunctionTy) : SType :=
  SType.func f.throwsAttr f.param f.result

/-- Model of swift::AnyFunctionType::Param: an argument or parameter with an
optional label, a type, and the flags read by the argument-list repairs. -/
structure Param where
  label : Option Identifier
  ty : SType
  isVariadic : Bool
  isInOut : Bool

/-- Model of the FixKind enumeration of CSFix.h, one enumerator per line of
the C++ enum, in source order. -/
inductive FixKind where
  | ForceOptional
  | UnwrapOptionalBase
  | UnwrapOptionalBaseWithOptionalResult
  | ForceDowncast
  | AddressOf
  | RemoveAddressOf
  | CoerceToCheckedCast
  | ExplicitlyEscaping
  | RelabelArguments
  | TreatRValueAsLValue
  | AddConformance
  | SkipSameTypeRequirement
  | SkipSuperclassRequirement
  | ContextualMismatch
  | GenericArgumentsMismatch
  | AutoClosureForwarding
  | RemoveUnwrap
  | InsertCall
  | UsePropertyWrapper
  | UseWrappedValue
  | UseSubscriptOperator
  | DefineMemberBasedOnUse
  | AllowTypeOrInstanceMember
  | AllowInvalidPartialApplication
  | AllowInvalidInitRef
  | AllowTupleTypeMismatch
  | AllowMemberRefOnExistential
  | AddMissingArguments
  | AllowClosureParameterDestructuring
  | MoveOutOfOrderArgument
  | AllowInaccessibleMember
  | AllowAnyObjectKeyPathRoot
  | TreatKeyPathSubscriptIndexAsHashable
  | AllowInvalidRefInKeyPath
  | RemoveReturn
  | ExplicitlySpecifyGenericArguments
  | SkipUnhandledConstructInFunctionBuilder
  | AllowMutatingMemberOnRValueBase
  | AllowTupleSplatForSingleParameter
  | AllowArgumentTypeMismatch
  | ExplicitlyConstructRawRepresentable
  | UseValueTypeOfRawRepresentative
  | ExpandArrayIntoVarargs
deriving DecidableEq

/-- Model of the abstract base class ConstraintFix: owning constraint system,
kind tag, locator pointer and warning flag. -/
structure ConstraintFix where
  CS : ConstraintSystem
  Kind : FixKind
  Locator : Option ConstraintLocator
  IsWarning : Bool

/-- ConstraintFix constructor. The C++ parameter warning defaults to false;
callers of this model pass the flag explicitly, with false at call sites that
use the default. -/
def ConstraintFix.mkFix (cs : ConstraintSystem) (kind : FixKind)
    (locator : Option ConstraintLocator) (warning : Bool) : ConstraintFix :=
  { CS := cs, Kind := kind, Locator := locator, IsWarning := warning }

/-- Member function getKind of ConstraintFix. -/
def ConstraintFix.getKind (f : ConstraintFix) : FixKind := f.Kind

/-- Member function isWarning of ConstraintFix. -/
def ConstraintFix.isWarningQuery (f : ConstraintFix) : Bool := f.IsWarning

/-- Member function getLocator of ConstraintFix. -/
def ConstraintFix.getLocator (f : ConstraintFix) : Option ConstraintLocator :=
  f.Locator

/-- Model of class ForceOptional (introduce a forced optional unwrap). -/
structure ForceOptional where
  toConstraintFix : ConstraintFix
  BaseType : CType
  UnwrappedType : CType

/-- Constructor of ForceOptional. The two asserts require non-null base and
unwrapped types; a violated assert aborts instead of producing a fix, which
is modelled as none. -/
def ForceOptional.mkCtor (cs : ConstraintSystem) (baseType unwrappedType : CType)
    (locator : Option ConstraintLocator) : Option ForceOptional :=
  if baseType.isSome && unwrappedType.isSome then
    some { toConstraintFix := ConstraintFix.mkFix cs FixKind.ForceOptional locator false,
           BaseType := baseType, UnwrappedType := unwrappedType }
  else none

/-- Modelled from the spec: the body of ForceOptional::create lives in
CSFix.cpp, which is not under src/; per the factory discipline of the spec an
unconditional factory allocates and returns a new instance through the
private constructor with the same arguments. -/
def ForceOptional.create (cs : ConstraintSystem) (baseType unwrappedType : CType)
    (locator : Option ConstraintLocator) : Option ForceOptional :=
  ForceOptional.mkCtor cs baseType unwrappedType locator

/-- Model of class UnwrapOptionalBase (unwrap an optional base of a member
access). -/
structure UnwrapOptionalBase where
  toConstraintFix : ConstraintFix
  MemberName : DeclName

/-- Constructor of UnwrapOptionalBase. The assert restricts the kind to
UnwrapOptionalBase or UnwrapOptionalBaseWithOptionalResult; a violated
assert is modelled as none. -/
def UnwrapOptionalBase.mkCtor (cs : ConstraintSystem) (kind : FixKind)
    (member : DeclName) (locator : Option ConstraintLocator) :
    Option UnwrapOptionalBase :=
  if kind = FixKind.UnwrapOptionalBase ∨
      kind = FixKind.UnwrapOptionalBaseWithOptionalResult then
    some { toConstraintFix := ConstraintFix.mkFix cs kind locator false,
           MemberName := member }
  else none

/-- Modelled from the spec: the body of UnwrapOptionalBase::create lives in
CSFix.cpp, which is not under src/; per the documented kinds of the FixKind
enumeration it constructs the variant with kind UnwrapOptionalBase. -/
def UnwrapOptionalBase.create (cs : ConstraintSystem) (member : DeclName)
    (locator : Option ConstraintLocator) : Option UnwrapOptionalBase :=
  UnwrapOptionalBase.mkCtor cs FixKind.UnwrapOptionalBase member locator

/-- Modelled from the spec: the body of
UnwrapOptionalBase::createWithOptionalResult lives in CSFix.cpp, which is not
under src/; per the documented kinds of the FixKind enumeration it constructs
the variant with kind UnwrapOptionalBaseWithOptionalResult. -/
def UnwrapOptionalBase.createWithOptionalResult (cs : ConstraintSystem)
    (member : DeclName) (locator : Option ConstraintLocator) :
    Option UnwrapOptionalBase :=
  UnwrapOptionalBase.mkCtor cs FixKind.UnwrapOptionalBaseWithOptionalResult
    member locator

/-- Model of class TreatRValueAsLValue. -/
structure TreatRValueAsLValue where
  toConstraintFix : ConstraintFix

/-- Constructor of TreatRValueAsLValue. -/
def TreatRValueAsLValue.mkCtor (cs : ConstraintSystem)
    (locator : Option ConstraintLocator) : TreatRValueAsLValue :=
  { toConstraintFix := ConstraintFix.mkFix cs FixKind.TreatRValueAsLValue locator false }

/-- Modelled from the spec: the body of TreatRValueAsLValue::create lives in
CSFix.cpp, which is not under src/; an unconditional factory returns a new
instance through the private constructor with the same arguments. -/
def TreatRValueAsLValue.create (cs : ConstraintSystem)
    (locator : Option ConstraintLocator) : TreatRValueAsLValue :=
  TreatRValueAsLValue.mkCtor cs locator

/-- Model of class MarkExplicitlyEscaping. -/
structure MarkExplicitlyEscaping where
  toConstraintFix : ConstraintFix
  ConvertTo : CType

/-- Constructor of MarkExplicitlyEscaping. The C++ parameter convertingTo
defaults to the null Type(); callers of this model pass it explicitly, with
none at call sites that use the default. No precondition is checked. -/
def MarkExplicitlyEscaping.mkCtor (cs : ConstraintSystem)
    (locator : Option ConstraintLocator) (convertingTo : CType) :
    MarkExplicitlyEscaping :=
  { toConstraintFix := ConstraintFix.mkFix cs FixKind.ExplicitlyEscaping locator false,
    ConvertTo := convertingTo }

/-- Modelled from the spec: the body of MarkExplicitlyEscaping::create lives
in CSFix.cpp, which is not under src/; an unconditional factory returns a new
instance through the private constructor with the same arguments, and its
convertingTo parameter carries the same null-Type default as the
constructor. -/
def MarkExplicitlyEscaping.create (cs : ConstraintSystem)
    (locator : Option ConstraintLocator) (convertingTo : CType) :
    MarkExplicitlyEscaping :=
  MarkExplicitlyEscaping.mkCtor cs locator convertingTo

/-- Call of MarkExplicitlyEscaping::create with the convertingTo argument
omitted, taking the declared default Type(), that is the absent type. -/
def MarkExplicitlyEscaping.createDefault (cs : ConstraintSystem)
    (locator : Option ConstraintLocator) : MarkExplicitlyEscaping :=
  MarkExplicitlyEscaping.create cs locator none

/-- Model of class RelabelArguments; the trailing Identifier storage and its
NumLabels count are modelled as the Labels list. -/
structure RelabelArguments where
  toConstraintFix : ConstraintFix
  Labels : List Identifier

/-- Constructor of RelabelArguments: copies the supplied labels into the
trailing storage. -/
def RelabelArguments.mkCtor (cs : ConstraintSystem)
    (correctLabels : List Identifier) (locator : Option ConstraintLocator) :
    RelabelArguments :=
  { toConstraintFix := ConstraintFix.mkFix cs FixKind.RelabelArguments locator false,
    Labels := correctLabels }

/-- Member function getLabels: the read-only view of the trailing storage. -/
def RelabelArguments.getLabels (f : RelabelArguments) : List Identifier :=
  f.Labels

/-- Modelled from the spec: the body of RelabelArguments::create lives in
CSFix.cpp, which is not under src/; per the variable-arity payload contract
the factory sizes one allocation from the supplied sequence and runs the
constructor, which copies the sequence. -/
def RelabelArguments.create (cs : ConstraintSystem)
    (correctLabels : List Identifier) (locator : Option ConstraintLocator) :
    RelabelArguments :=
  RelabelArguments.mkCtor cs correctLabels locator

/-- Model of class MissingConformance. -/
structure MissingConformance where
  toConstraintFix : ConstraintFix
  IsContextual : Bool
  NonConformingType : CType
  ProtocolType : CType

/-- Constructor of MissingConformance. -/
def MissingConformance.mkCtor (cs : ConstraintSystem) (isContextual : Bool)
    (type protocolType : CType) (locator : Option ConstraintLocator) :
    MissingConformance :=
  { toConstraintFix := ConstraintFix.mkFix cs FixKind.AddConformance locator false,
    IsContextual := isContextual, NonConformingType := type,
    ProtocolType := protocolType }

/-- Model of class SkipSameTypeRequirement. -/
structure SkipSameTypeRequirement where
  toConstraintFix : ConstraintFix
  LHS : CType
  RHS : CType

/-- Constructor of SkipSameTypeRequirement. -/
def SkipSameTypeRequirement.mkCtor (cs : ConstraintSystem) (lhs rhs : CType)
    (locator : Option ConstraintLocator) : SkipSameTypeRequirement :=
  { toConstraintFix := ConstraintFix.mkFix cs FixKind.SkipSameTypeRequirement locator false,
    LHS := lhs, RHS := rhs }

/-- Model of class SkipSuperclassRequirement. -/
structure SkipSuperclassRequirement where
  toConstraintFix : ConstraintFix
  LHS : CType
  RHS : CType

/-- Constructor of SkipSuperclassRequirement. -/
def SkipSuperclassRequirement.mkCtor (cs : ConstraintSystem) (lhs rhs : CType)
    (locator : Option ConstraintLocator) : SkipSuperclassRequirement :=
  { toConstraintFix := ConstraintFix.mkFix cs FixKind.SkipSuperclassRequirement locator false,
    LHS := lhs, RHS := rhs }

/-- Model of class ContextualMismatch, the base of the contextual-mismatch
family; LHS and RHS are the stored from-type and to-type. -/
structure ContextualMismatch where
  toConstraintFix : ConstraintFix
  LHS : CType
  RHS : CType

/-- Protected base constructor of ContextualMismatch: fixes the kind to
FixKind.ContextualMismatch. -/
def ContextualMismatch.mkBase (cs : ConstraintSystem) (lhs rhs : CType)
    (locator : Option ConstraintLocator) : ContextualMismatch :=
  { toConstraintFix := ConstraintFix.mkFix cs FixKind.ContextualMismatch locator false,
    LHS := lhs, RHS := rhs }

/-- Protected kinded constructor of ContextualMismatch: the derived class
supplies its own kind and warning flag (defaulted to false at C++ call sites
that omit it). -/
def ContextualMismatch.mkKinded (cs : ConstraintSystem) (kind : FixKind)
    (lhs rhs : CType) (locator : Option ConstraintLocator) (warning : Bool) :
    ContextualMismatch :=
  { toConstraintFix := ConstraintFix.mkFix cs kind locator warning,
    LHS := lhs, RHS := rhs }

/-- Member function getFromType of ContextualMismatch. -/
def ContextualMismatch.getFromType (f : ContextualMismatch) : CType := f.LHS

/-- Member function getToType of ContextualMismatch. -/
def ContextualMismatch.getToType (f : ContextualMismatch) : CType := f.RHS

/-- Modelled from the spec: the body of ContextualMismatch::create lives in
CSFix.cpp, which is not under src/; an unconditional factory returns a new
instance through the base constructor with the same arguments. -/
def ContextualMismatch.create (cs : ConstraintSystem) (lhs rhs : CType)
    (locator : Option ConstraintLocator) : ContextualMismatch :=
  ContextualMismatch.mkBase cs lhs rhs locator

/-- Model of class DropThrowsAttribute. -/
structure DropThrowsAttribute where
  toContextualMismatch : ContextualMismatch

/-- Constructor of DropThrowsAttribute; it delegates to the kind-less base
constructor of ContextualMismatch, so its kind is FixKind.ContextualMismatch.
The assert requires the two function types to differ in their throws bit; a
violated assert is modelled as none. -/
def DropThrowsAttribute.mkCtor (cs : ConstraintSystem)
    (fromType toType : FunctionTy) (locator : Option ConstraintLocator) :
    Option DropThrowsAttribute :=
  if fromType.throwsAttr ≠ toType.throwsAttr then
    some { toContextualMismatch :=
             ContextualMismatch.mkBase cs (some fromType.toSType)
               (some toType.toSType) locator }
  else none

/-- Modelled from the spec: the body of DropThrowsAttribute::create lives in
CSFix.cpp, which is not under src/; an unconditional factory returns a new
instance through the private constructor with the same arguments. -/
def DropThrowsAttribute.create (cs : ConstraintSystem)
    (fromType toType : FunctionTy) (locator : Option ConstraintLocator) :
    Option DropThrowsAttribute :=
  DropThrowsAttribute.mkCtor cs fromType toType locator

/-- Model of class ForceDowncast. -/
structure ForceDowncast where
  toContextualMismatch : ContextualMismatch

/-- Constructor of ForceDowncast: stores (fromType, toType) through the kinded
ContextualMismatch constructor with kind ForceDowncast. -/
def ForceDowncast.mkCtor (cs : ConstraintSystem) (fromType toType : CType)
    (locator : Option ConstraintLocator) : ForceDowncast :=
  { toContextualMismatch :=
      ContextualMismatch.mkKinded cs FixKind.ForceDowncast fromType toType
        locator false }

/-- Modelled from the spec: the body of ForceDowncast::create lives in
CSFix.cpp, which is not under src/; an unconditional factory returns a new
instance through the private constructor with the same arguments. -/
def ForceDowncast.create (cs : ConstraintSystem) (fromType toType : CType)
    (locator : Option ConstraintLocator) : ForceDowncast :=
  ForceDowncast.mkCtor cs fromType toType locator

/-- Model of class AddAddressOf. -/
structure AddAddressOf where
  toContextualMismatch : ContextualMismatch

/-- Constructor of AddAddressOf: stores (argTy, paramTy) through the kinded
ContextualMismatch constructor with kind AddressOf. -/
def AddAddressOf.mkCtor (cs : ConstraintSystem) (argTy paramTy : CType)
    (locator : Option ConstraintLocator) : AddAddressOf :=
  { toContextualMismatch :=
      ContextualMismatch.mkKinded cs FixKind.AddressOf argTy paramTy locator false }

/-- Modelled from the spec: the body of AddAddressOf::create lives in
CSFix.cpp, which is not under src/; an unconditional factory returns a new
instance through the private constructor with the same arguments. -/
def AddAddressOf.create (cs : ConstraintSystem) (argTy paramTy : CType)
    (locator : Option ConstraintLocator) : AddAddressOf :=
  AddAddressOf.mkCtor cs argTy paramTy locator

/-- Model of class RemoveAddressOf. -/
structure RemoveAddressOf where
  toContextualMismatch : ContextualMismatch

/-- Constructor of RemoveAddressOf: stores (lhs, rhs) through the kinded
ContextualMismatch constructor with kind RemoveAddressOf. -/
def RemoveAddressOf.mkCtor (cs : ConstraintSystem) (lhs rhs : CType)
    (locator : Option ConstraintLocator) : RemoveAddressOf :=
  { toContextualMismatch :=
      ContextualMismatch.mkKinded cs FixKind.RemoveAddressOf lhs rhs locator false }

/-- Modelled from the spec: the body of RemoveAddressOf::create lives in
CSFix.cpp, which is not under src/; an unconditional factory returns a new
instance through the private constructor with the same arguments. -/
def RemoveAddressOf.create (cs : ConstraintSystem) (lhs rhs : CType)
    (locator : Option ConstraintLocator) : RemoveAddressOf :=
  RemoveAddressOf.mkCtor cs lhs rhs locator

/-- Model of class GenericArgumentsMismatch; the trailing unsigned storage and
its NumMismatches count are modelled as the Mismatches list. -/
structure GenericArgumentsMismatch where
  toContextualMismatch : ContextualMismatch
  Mismatches : List Nat

/-- Constructor of GenericArgumentsMismatch: the asserts require both types to
be bound generic applications (a null type aborts on the dereference in the
assert); a violated assert is modelled as none. The supplied mismatch indices
are copied into the trailing storage unchanged and unchecked. -/
def GenericArgumentsMismatch.mkCtor (cs : ConstraintSystem)
    (actual required : CType) (mismatches : List Nat)
    (locator : Option ConstraintLocator) : Option GenericArgumentsMismatch :=
  if actual.isBoundGenericType && required.isBoundGenericType then
    some { toContextualMismatch :=
             ContextualMismatch.mkKinded cs FixKind.GenericArgumentsMismatch
               actual required locator false,
           Mismatches := mismatches }
  else none

/-- Member function getMismatches: the read-only view of the trailing
storage. -/
def GenericArgumentsMismatch.getMismatches (f : GenericArgumentsMismatch) :
    List Nat :=
  f.Mismatches

/-- Modelled from the spec: the body of GenericArgumentsMismatch::create lives
in CSFix.cpp, which is not under src/; per the variable-arity payload
contract the factory sizes one allocation from the supplied sequence and runs
the constructor, which copies the sequence. -/
def GenericArgumentsMismatch.create (cs : ConstraintSystem)
    (actual required : CType) (mismatches : List Nat)
    (locator : Option ConstraintLocator) : Option GenericArgumentsMismatch :=
  GenericArgumentsMismatch.mkCtor cs actual required mismatches locator

/-- Model of class KeyPathContextualMismatch. -/
structure KeyPathContextualMismatch where
  toContextualMismatch : ContextualMismatch

/-- Constructor of KeyPathContextualMismatch; it delegates to the kind-less
base constructor of ContextualMismatch, so its kind is
FixKind.ContextualMismatch. -/
def KeyPathContextualMismatch.mkCtor (cs : ConstraintSystem) (lhs rhs : CType)
    (locator : Option ConstraintLocator) : KeyPathContextualMismatch :=
  { toContextualMismatch := ContextualMismatch.mkBase cs lhs rhs locator }

/-- Modelled from the spec: the body of KeyPathContextualMismatch::create
lives in CSFix.cpp, which is not under src/; an unconditional factory returns
a new instance through the private constructor with the same arguments. -/
def KeyPathContextualMismatch.create (cs : ConstraintSystem) (lhs rhs : CType)
    (locator : Option ConstraintLocator) : KeyPathContextualMismatch :=
  KeyPathContextualMismatch.mkCtor cs lhs rhs locator

/-- Model of class AutoClosureForwarding. -/
structure AutoClosureForwarding where
  toConstraintFix : ConstraintFix

/-- Constructor of AutoClosureForwarding. -/
def AutoClosureForwarding.mkCtor (cs : ConstraintSystem)
    (locator : Option ConstraintLocator) : AutoClosureForwarding :=
  { toConstraintFix := ConstraintFix.mkFix cs FixKind.AutoClosureForwarding locator false }

/-- Model of class AllowAutoClosurePointerConversion. -/
structure AllowAutoClosurePointerConversion where
  toContextualMismatch : ContextualMismatch

/-- Constructor of AllowAutoClosurePointerConversion; it delegates to the
kind-less base constructor of ContextualMismatch, so its kind is
FixKind.ContextualMismatch. -/
def AllowAutoClosurePointerConversion.mkCtor (cs : ConstraintSystem)
    (pointeeType pointerType : CType) (locator : Option ConstraintLocator) :
    AllowAutoClosurePointerConversion :=
  { toContextualMismatch :=
      ContextualMismatch.mkBase cs pointeeType pointerType locator }

/-- Model of class RemoveUnwrap. -/
structure RemoveUnwrap where
  toConstraintFix : ConstraintFix
  BaseType : CType

/-- Constructor of RemoveUnwrap. -/
def RemoveUnwrap.mkCtor (cs : ConstraintSystem) (baseType : CType)
    (locator : Option ConstraintLocator) : RemoveUnwrap :=
  { toConstraintFix := ConstraintFix.mkFix cs FixKind.RemoveUnwrap locator false,
    BaseType := baseType }

/-- Model of class InsertExplicitCall. -/
structure InsertExplicitCall where
  toConstraintFix : ConstraintFix

/-- Constructor of InsertExplicitCall. -/
def InsertExplicitCall.mkCtor (cs : ConstraintSystem)
    (locator : Option ConstraintLocator) : InsertExplicitCall :=
  { toConstraintFix := ConstraintFix.mkFix cs FixKind.InsertCall locator false }

/-- Model of class UsePropertyWrapper. -/
structure UsePropertyWrapper where
  toConstraintFix : ConstraintFix
  Wrapped : VarDecl
  UsingStorageWrapper : Bool
  Base : CType
  Wrapper : CType

/-- Constructor of UsePropertyWrapper: stores the wrapped declaration, the
storage-wrapper flag, the base type and the wrapper type from its
arguments. -/
def UsePropertyWrapper.mkCtor (cs : ConstraintSystem) (wrapped : VarDecl)
    (usingStorageWrapper : Bool) (base wrapper : CType)
    (locator : Option ConstraintLocator) : UsePropertyWrapper :=
  { toConstraintFix := ConstraintFix.mkFix cs FixKind.UsePropertyWrapper locator false,
    Wrapped := wrapped, UsingStorageWrapper := usingStorageWrapper,
    Base := base, Wrapper := wrapper }

/-- Modelled from the spec: the body of UsePropertyWrapper::create lives in
CSFix.cpp, which is not under src/; an unconditional factory returns a new
instance through the private constructor with the same arguments. -/
def UsePropertyWrapper.create (cs : ConstraintSystem) (wrapped : VarDecl)
    (usingStorageWrapper : Bool) (base wrapper : CType)
    (locator : Option ConstraintLocator) : UsePropertyWrapper :=
  UsePropertyWrapper.mkCtor cs wrapped usingStorageWrapper base wrapper locator

/-- Model of class UseWrappedValue. Note that unlike UsePropertyWrapper this
class stores no wording flag: its storage-wrapper flag is computed on demand
from the name of the stored property-wrapper declaration. -/
structure UseWrappedValue where
  toConstraintFix : ConstraintFix
  PropertyWrapper : VarDecl
  Base : CType
  Wrapper : CType

/-- Constructor of UseWrappedValue: stores the property-wrapper declaration,
the base type and the wrapper type from its arguments. -/
def UseWrappedValue.mkCtor (cs : ConstraintSystem) (propertyWrapper : VarDecl)
    (base wrapper : CType) (locator : Option ConstraintLocator) :
    UseWrappedValue :=
  { toConstraintFix := ConstraintFix.mkFix cs FixKind.UseWrappedValue locator false,
    PropertyWrapper := propertyWrapper, Base := base, Wrapper := wrapper }

/-- Underscore string used by UseWrappedValue.usingStorageWrapper. -/
def underscoreStr : String := ("_")

/-- Member function usingStorageWrapper of UseWrappedValue: true exactly when
the stored declaration name does not start with an underscore. -/
def UseWrappedValue.usingStorageWrapper (f : UseWrappedValue) : Bool :=
  !(f.PropertyWrapper.name.startsWith underscoreStr)

/-- Modelled from the spec: the body of UseWrappedValue::create lives in
CSFix.cpp, which is not under src/; an unconditional factory returns a new
instance through the private constructor with the same arguments. -/
def UseWrappedValue.create (cs : ConstraintSystem) (propertyWrapper : VarDecl)
    (base wrapper : CType) (locator : Option ConstraintLocator) :
    UseWrappedValue :=
  UseWrappedValue.mkCtor cs propertyWrapper base wrapper locator

/-- Model of class UseSubscriptOperator. -/
structure UseSubscriptOperator where
  toConstraintFix : ConstraintFix

/-- Constructor of UseSubscriptOperator. -/
def UseSubscriptOperator.mkCtor (cs : ConstraintSystem)
    (locator : Option ConstraintLocator) : UseSubscriptOperator :=
  { toConstraintFix := ConstraintFix.mkFix cs FixKind.UseSubscriptOperator locator false }

/-- Model of class DefineMemberBasedOnUse. -/
structure DefineMemberBasedOnUse where
  toConstraintFix : ConstraintFix
  BaseType : CType
  Name : DeclName

/-- Constructor of DefineMemberBasedOnUse. -/
def DefineMemberBasedOnUse.mkCtor (cs : ConstraintSystem) (baseType : CType)
    (member : DeclName) (locator : Option ConstraintLocator) :
    DefineMemberBasedOnUse :=
  { toConstraintFix := ConstraintFix.mkFix cs FixKind.DefineMemberBasedOnUse locator false,
    BaseType := baseType, Name := member }

/-- Model of the intermediate class AllowInvalidMemberRef, the base of the
invalid-member-reference family. -/
structure AllowInvalidMemberRef where
  toConstraintFix : ConstraintFix
  BaseType : CType
  Member : Option ValueDecl
  Name : DeclName

/-- Protected constructor of AllowInvalidMemberRef: the derived class supplies
its kind. -/
def AllowInvalidMemberRef.mkCtor (cs : ConstraintSystem) (kind : FixKind)
    (baseType : CType) (member : Option ValueDecl) (name : DeclName)
    (locator : Option ConstraintLocator) : AllowInvalidMemberRef :=
  { toConstraintFix := ConstraintFix.mkFix cs kind locator false,
    BaseType := baseType, Member := member, Name := name }

/-- Member function getBaseType of AllowInvalidMemberRef. -/
def AllowInvalidMemberRef.getBaseType (f : AllowInvalidMemberRef) : CType :=
  f.BaseType

/-- Member function getMember of AllowInvalidMemberRef. -/
def AllowInvalidMemberRef.getMember (f : AllowInvalidMemberRef) :
    Option ValueDecl :=
  f.Member

/-- Member function getMemberName of AllowInvalidMemberRef. -/
def AllowInvalidMemberRef.getMemberName (f : AllowInvalidMemberRef) : DeclName :=
  f.Name

/-- Model of class AllowMemberRefOnExistential. -/
structure AllowMemberRefOnExistential where
  toAllowInvalidMemberRef : AllowInvalidMemberRef

/-- Constructor of AllowMemberRefOnExistential. -/
def AllowMemberRefOnExistential.mkCtor (cs : ConstraintSystem) (baseType : CType)
    (memberName : DeclName) (member : Option ValueDecl)
    (locator : Option ConstraintLocator) : AllowMemberRefOnExistential :=
  { toAllowInvalidMemberRef :=
      AllowInvalidMemberRef.mkCtor cs FixKind.AllowMemberRefOnExistential
        baseType member memberName locator }

/-- Model of class AllowTypeOrInstanceMember. -/
structure AllowTypeOrInstanceMember where
  toAllowInvalidMemberRef : AllowInvalidMemberRef

/-- Constructor of AllowTypeOrInstanceMember. The assert requires a non-null
member declaration; a violated assert is modelled as none. -/
def AllowTypeOrInstanceMember.mkCtor (cs : ConstraintSystem) (baseType : CType)
    (member : Option ValueDecl) (name : DeclName)
    (locator : Option ConstraintLocator) : Option AllowTypeOrInstanceMember :=
  if member.isSome then
    some { toAllowInvalidMemberRef :=
             AllowInvalidMemberRef.mkCtor cs FixKind.AllowTypeOrInstanceMember
               baseType member name locator }
  else none

/-- Model of class AllowInvalidPartialApplication. -/
structure AllowInvalidPartialApplication where
  toConstraintFix : ConstraintFix

/-- Constructor of AllowInvalidPartialApplication: the only variant whose
warning flag is a leading constructor argument. -/
def AllowInvalidPartialApplication.mkCtor (isWarning : Bool)
    (cs : ConstraintSystem) (locator : Option ConstraintLocator) :
    AllowInvalidPartialApplication :=
  { toConstraintFix :=
      ConstraintFix.mkFix cs FixKind.AllowInvalidPartialApplication locator isWarning }

/-- Model of the nested enumeration AllowInvalidInitRef::RefKind. -/
inductive AllowInvalidInitRef.RefKind where
  | DynamicOnMetatype
  | ProtocolMetatype
  | NonConstMetatype
deriving DecidableEq

/-- Model of class AllowInvalidInitRef. -/
structure AllowInvalidInitRef where
  toConstraintFix : ConstraintFix
  Kind : AllowInvalidInitRef.RefKind
  BaseType : CType
  Init : Option ConstructorDecl
  IsStaticallyDerived : Bool
  BaseRange : SourceRange

/-- Constructor of AllowInvalidInitRef. -/
def AllowInvalidInitRef.mkCtor (cs : ConstraintSystem)
    (kind : AllowInvalidInitRef.RefKind) (baseTy : CType)
    (init : Option ConstructorDecl) (isStaticallyDerived : Bool)
    (baseRange : SourceRange) (locator : Option ConstraintLocator) :
    AllowInvalidInitRef :=
  { toConstraintFix := ConstraintFix.mkFix cs FixKind.AllowInvalidInitRef locator false,
    Kind := kind, BaseType := baseTy, Init := init,
    IsStaticallyDerived := isStaticallyDerived, BaseRange := baseRange }

/-- Model of class AllowTupleTypeMismatch. -/
structure AllowTupleTypeMismatch where
  toContextualMismatch : ContextualMismatch

/-- Constructor of AllowTupleTypeMismatch: kinded ContextualMismatch
constructor with kind AllowTupleTypeMismatch. -/
def AllowTupleTypeMismatch.mkCtor (cs : ConstraintSystem) (lhs rhs : CType)
    (locator : Option ConstraintLocator) : AllowTupleTypeMismatch :=
  { toContextualMismatch :=
      ContextualMismatch.mkKinded cs FixKind.AllowTupleTypeMismatch lhs rhs
        locator false }

/-- Model of class AllowMutatingMemberOnRValueBase. -/
structure AllowMutatingMemberOnRValueBase where
  toAllowInvalidMemberRef : AllowInvalidMemberRef

/-- Constructor of AllowMutatingMemberOnRValueBase. -/
def AllowMutatingMemberOnRValueBase.mkCtor (cs : ConstraintSystem)
    (baseType : CType) (member : Option ValueDecl) (name : DeclName)
    (locator : Option ConstraintLocator) : AllowMutatingMemberOnRValueBase :=
  { toAllowInvalidMemberRef :=
      AllowInvalidMemberRef.mkCtor cs FixKind.AllowMutatingMemberOnRValueBase
        baseType member name locator }

/-- Model of class AllowClosureParamDestructuring. -/
structure AllowClosureParamDestructuring where
  toConstraintFix : ConstraintFix
  ContextualType : Option FunctionTy

/-- Constructor of AllowClosureParamDestructuring. -/
def AllowClosureParamDestructuring.mkCtor (cs : ConstraintSystem)
    (contextualType : Option FunctionTy) (locator : Option ConstraintLocator) :
    AllowClosureParamDestructuring :=
  { toConstraintFix :=
      ConstraintFix.mkFix cs FixKind.AllowClosureParameterDestructuring locator false,
    ContextualType := contextualType }

/-- Model of class AddMissingArguments; the trailing Param storage and its
NumSynthesized count are modelled as the SynthesizedArgs list. -/
structure AddMissingArguments where
  toConstraintFix : ConstraintFix
  SynthesizedArgs : List Param

/-- Constructor of AddMissingArguments: copies the supplied synthesized
arguments into the trailing storage. -/
def AddMissingArguments.mkCtor (cs : ConstraintSystem)
    (synthesizedArgs : List Param) (locator : Option ConstraintLocator) :
    AddMissingArguments :=
  { toConstraintFix := ConstraintFix.mkFix cs FixKind.AddMissingArguments locator false,
    SynthesizedArgs := synthesizedArgs }

/-- Member function getSynthesizedArguments: the read-only view of the
trailing storage. -/
def AddMissingArguments.getSynthesizedArguments (f : AddMissingArguments) :
    List Param :=
  f.SynthesizedArgs

/-- Modelled from the spec: the body of AddMissingArguments::create lives in
CSFix.cpp, which is not under src/; per the variable-arity payload contract
the factory sizes one allocation from the supplied sequence and runs the
constructor, which copies the sequence. -/
def AddMissingArguments.create (cs : ConstraintSystem)
    (synthesizedArgs : List Param) (locator : Option ConstraintLocator) :
    AddMissingArguments :=
  AddMissingArguments.mkCtor cs synthesizedArgs locator

/-- Model of class MoveOutOfOrderArgument; a ParamBinding is a list of
argument indices bound to one parameter. -/
structure MoveOutOfOrderArgument where
  toConstraintFix : ConstraintFix
  ArgIdx : Nat
  PrevArgIdx : Nat
  Bindings : List (List Nat)

/-- Constructor of MoveOutOfOrderArgument: copies the supplied binding
table. -/
def MoveOutOfOrderArgument.mkCtor (cs : ConstraintSystem) (argIdx prevArgIdx : Nat)
    (bindings : List (List Nat)) (locator : Option ConstraintLocator) :
    MoveOutOfOrderArgument :=
  { toConstraintFix := ConstraintFix.mkFix cs FixKind.MoveOutOfOrderArgument locator false,
    ArgIdx := argIdx, PrevArgIdx := prevArgIdx, Bindings := bindings }

/-- Model of class AllowInaccessibleMember. -/
structure AllowInaccessibleMember where
  toAllowInvalidMemberRef : AllowInvalidMemberRef

/-- Constructor of AllowInaccessibleMember. -/
def AllowInaccessibleMember.mkCtor (cs : ConstraintSystem) (baseType : CType)
    (member : Option ValueDecl) (name : DeclName)
    (locator : Option ConstraintLocator) : AllowInaccessibleMember :=
  { toAllowInvalidMemberRef :=
      AllowInvalidMemberRef.mkCtor cs FixKind.AllowInaccessibleMember baseType
        member name locator }

/-- Model of class AllowAnyObjectKeyPathRoot. -/
structure AllowAnyObjectKeyPathRoot where
  toConstraintFix : ConstraintFix

/-- Constructor of AllowAnyObjectKeyPathRoot. -/
def AllowAnyObjectKeyPathRoot.mkCtor (cs : ConstraintSystem)
    (locator : Option ConstraintLocator) : AllowAnyObjectKeyPathRoot :=
  { toConstraintFix := ConstraintFix.mkFix cs FixKind.AllowAnyObjectKeyPathRoot locator false }

/-- Model of class TreatKeyPathSubscriptIndexAsHashable. -/
structure TreatKeyPathSubscriptIndexAsHashable where
  toConstraintFix : ConstraintFix
  NonConformingType : CType

/-- Constructor of TreatKeyPathSubscriptIndexAsHashable. -/
def TreatKeyPathSubscriptIndexAsHashable.mkCtor (cs : ConstraintSystem)
    (type : CType) (locator : Option ConstraintLocator) :
    TreatKeyPathSubscriptIndexAsHashable :=
  { toConstraintFix :=
      ConstraintFix.mkFix cs FixKind.TreatKeyPathSubscriptIndexAsHashable locator false,
    NonConformingType := type }

/-- Model of the nested enumeration AllowInvalidRefInKeyPath::RefKind. -/
inductive AllowInvalidRefInKeyPath.RefKind where
  | StaticMember
  | MutatingGetter
  | Method
deriving DecidableEq

/-- Model of class AllowInvalidRefInKeyPath. -/
structure AllowInvalidRefInKeyPath where
  toConstraintFix : ConstraintFix
  Kind : AllowInvalidRefInKeyPath.RefKind
  Member : Option ValueDecl

/-- Constructor of AllowInvalidRefInKeyPath. -/
def AllowInvalidRefInKeyPath.mkCtor (cs : ConstraintSystem)
    (kind : AllowInvalidRefInKeyPath.RefKind) (member : Option ValueDecl)
    (locator : Option ConstraintLocator) : AllowInvalidRefInKeyPath :=
  { toConstraintFix := ConstraintFix.mkFix cs FixKind.AllowInvalidRefInKeyPath locator false,
    Kind := kind, Member := member }

/-- Model of class RemoveReturn. -/
structure RemoveReturn where
  toConstraintFix : ConstraintFix

/-- Constructor of RemoveReturn. -/
def RemoveReturn.mkCtor (cs : ConstraintSystem)
    (locator : Option ConstraintLocator) : RemoveReturn :=
  { toConstraintFix := ConstraintFix.mkFix cs FixKind.RemoveReturn locator false }

/-- Model of class CollectionElementContextualMismatch. -/
structure CollectionElementContextualMismatch where
  toContextualMismatch : ContextualMismatch

/-- Constructor of CollectionElementContextualMismatch; it delegates to the
kind-less base constructor of ContextualMismatch, so its kind is
FixKind.ContextualMismatch. -/
def CollectionElementContextualMismatch.mkCtor (cs : ConstraintSystem)
    (srcType dstType : CType) (locator : Option ConstraintLocator) :
    CollectionElementContextualMismatch :=
  { toContextualMismatch := ContextualMismatch.mkBase cs srcType dstType locator }

/-- Modelled from the spec: the body of
CollectionElementContextualMismatch::create lives in CSFix.cpp, which is not
under src/; an unconditional factory returns a new instance through the
private constructor with the same arguments. -/
def CollectionElementContextualMismatch.create (cs : ConstraintSystem)
    (srcType dstType : CType) (locator : Option ConstraintLocator) :
    CollectionElementContextualMismatch :=
  CollectionElementContextualMismatch.mkCtor cs srcType dstType locator

/-- Model of class ExplicitlySpecifyGenericArguments; the trailing
GenericTypeParamType storage and its NumMissingParams count are modelled as
the Params list. -/
structure ExplicitlySpecifyGenericArguments where
  toConstraintFix : ConstraintFix
  Params : List GenericTypeParamType

/-- Constructor of ExplicitlySpecifyGenericArguments. The assert requires a
non-empty parameter list; a violated assert is modelled as none. The supplied
parameters are copied into the trailing storage. -/
def ExplicitlySpecifyGenericArguments.mkCtor (cs : ConstraintSystem)
    (params : List GenericTypeParamType) (locator : Option ConstraintLocator) :
    Option ExplicitlySpecifyGenericArguments :=
  if params.isEmpty then none
  else
    some { toConstraintFix :=
             ConstraintFix.mkFix cs FixKind.ExplicitlySpecifyGenericArguments
               locator false,
           Params := params }

/-- Member function getParameters: the read-only view of the trailing
storage. -/
def ExplicitlySpecifyGenericArguments.getParameters
    (f : ExplicitlySpecifyGenericArguments) : List GenericTypeParamType :=
  f.Params

/-- Modelled from the spec: the body of
ExplicitlySpecifyGenericArguments::create lives in CSFix.cpp, which is not
under src/; per the variable-arity payload contract the factory sizes one
allocation from the supplied sequence and runs the constructor, which copies
the sequence. -/
def ExplicitlySpecifyGenericArguments.create (cs : ConstraintSystem)
    (params : List GenericTypeParamType) (locator : Option ConstraintLocator) :
    Option ExplicitlySpecifyGenericArguments :=
  ExplicitlySpecifyGenericArguments.mkCtor cs params locator

/-- Model of class SkipUnhandledConstructInFunctionBuilder. -/
structure SkipUnhandledConstructInFunctionBuilder where
  toConstraintFix : ConstraintFix
  unhandled : UnhandledNode
  builder : Option NominalTypeDecl

/-- Constructor of SkipUnhandledConstructInFunctionBuilder. -/
def SkipUnhandledConstructInFunctionBuilder.mkCtor (cs : ConstraintSystem)
    (unhandled : UnhandledNode) (builder : Option NominalTypeDecl)
    (locator : Option ConstraintLocator) :
    SkipUnhandledConstructInFunctionBuilder :=
  { toConstraintFix :=
      ConstraintFix.mkFix cs FixKind.SkipUnhandledConstructInFunctionBuilder
        locator false,
    unhandled := unhandled, builder := builder }

/-- Model of class AllowTupleSplatForSingleParameter. -/
structure AllowTupleSplatForSingleParameter where
  toConstraintFix : ConstraintFix
  ParamType : CType

/-- Constructor of AllowTupleSplatForSingleParameter. -/
def AllowTupleSplatForSingleParameter.mkCtor (cs : ConstraintSystem)
    (paramTy : CType) (locator : Option ConstraintLocator) :
    AllowTupleSplatForSingleParameter :=
  { toConstraintFix :=
      ConstraintFix.mkFix cs FixKind.AllowTupleSplatForSingleParameter locator false,
    ParamType := paramTy }

/-- Test used by the tuple-splat probe model: an argument is foldable into a
tuple element when it is positional (unlabeled) and ordinary (neither
variadic nor inout). -/
def Param.isPlainPositional (a : Param) : Bool :=
  a.label.isNone && !a.isVariadic && !a.isInOut

/-- Arity of a tuple type node, absent for every non-tuple node; used by the
tuple-splat probe model. -/
def SType.tupleArity : SType → Option Nat
  | SType.tuple elems => some elems.length
  | _ => none

/-- Folding of a whole argument list into one tuple-typed plain positional
argument, performed by the tuple-splat probe on success. -/
def Param.foldIntoTuple (args : List Param) : Param :=
  { label := none, ty := SType.tuple (args.map Param.ty), isVariadic := false,
    isInOut := false }

/-- Modelled from the spec: the body of
AllowTupleSplatForSingleParameter::attempt lives in CSFix.cpp, which is not
under src/. Per the spec it is a fallible in-place pre-pass over the argument
list and its parameter binding table: it succeeds only when exactly one
parameter remains and that parameter's type is a tuple compatible in arity
and shape with the arguments (modelled as: the tuple has exactly one element
per supplied argument and every argument is plain positional); on success it
folds the whole argument list into a single tuple-typed argument, rebinds
the binding table to that single argument, and reports applicability; in
every other case it leaves the argument list and the binding table exactly
as supplied and reports non-applicability. Following the C++ return
convention documented in the header, the returned Bool is true when the fix
is NOT applicable. The result triple is (notApplicable, arguments,
bindings). -/
def AllowTupleSplatForSingleParameter.attempt (cs : ConstraintSystem)
    (args : List Param) (params : List Param) (bindings : List (List Nat))
    (locator : ConstraintLocatorBuilder) :
    Bool × List Param × List (List Nat) :=
  match params with
  | [param] =>
    if param.ty.tupleArity == some args.length
        && args.all Param.isPlainPositional then
      (false, [Param.foldIntoTuple args], [[0]])
    else (true, args, bindings)
  | _ => (true, args, bindings)

/-- Model of class IgnoreContextualType. -/
structure IgnoreContextualType where
  toContextualMismatch : ContextualMismatch

/-- Constructor of IgnoreContextualType; it delegates to the kind-less base
constructor of ContextualMismatch, so its kind is
FixKind.ContextualMismatch. -/
def IgnoreContextualType.mkCtor (cs : ConstraintSystem)
    (resultTy specifiedTy : CType) (locator : Option ConstraintLocator) :
    IgnoreContextualType :=
  { toContextualMismatch := ContextualMismatch.mkBase cs resultTy specifiedTy locator }

/-- Model of class IgnoreAssignmentDestinationType. -/
structure IgnoreAssignmentDestinationType where
  toContextualMismatch : ContextualMismatch

/-- Constructor of IgnoreAssignmentDestinationType; it delegates to the
kind-less base constructor of ContextualMismatch, so its kind is
FixKind.ContextualMismatch. -/
def IgnoreAssignmentDestinationType.mkCtor (cs : ConstraintSystem)
    (sourceTy destTy : CType) (locator : Option ConstraintLocator) :
    IgnoreAssignmentDestinationType :=
  { toContextualMismatch := ContextualMismatch.mkBase cs sourceTy destTy locator }

/-- Model of class AllowInOutConversion. -/
structure AllowInOutConversion where
  toContextualMismatch : ContextualMismatch

/-- Constructor of AllowInOutConversion; it delegates to the kind-less base
constructor of ContextualMismatch, so its kind is
FixKind.ContextualMismatch. -/
def AllowInOutConversion.mkCtor (cs : ConstraintSystem) (argType paramType : CType)
    (locator : Option ConstraintLocator) : AllowInOutConversion :=
  { toContextualMismatch := ContextualMismatch.mkBase cs argType paramType locator }

/-- Model of the intermediate class AllowArgumentMismatch. -/
structure AllowArgumentMismatch where
  toContextualMismatch : ContextualMismatch

/-- Kinded protected constructor of AllowArgumentMismatch: the derived class
supplies its kind and warning flag. -/
def AllowArgumentMismatch.mkKinded (cs : ConstraintSystem) (kind : FixKind)
    (argType paramType : CType) (locator : Option ConstraintLocator)
    (warning : Bool) : AllowArgumentMismatch :=
  { toContextualMismatch :=
      ContextualMismatch.mkKinded cs kind argType paramType locator warning }

/-- Kind-less protected constructor of AllowArgumentMismatch: delegates to the
kinded one with kind AllowArgumentTypeMismatch. -/
def AllowArgumentMismatch.mkCtor (cs : ConstraintSystem)
    (argType paramType : CType) (locator : Option ConstraintLocator) :
    AllowArgumentMismatch :=
  AllowArgumentMismatch.mkKinded cs FixKind.AllowArgumentTypeMismatch argType
    paramType locator false

/-- Model of class ExpandArrayIntoVarargs. -/
structure ExpandArrayIntoVarargs where
  toAllowArgumentMismatch : AllowArgumentMismatch

/-- Constructor of ExpandArrayIntoVarargs. -/
def ExpandArrayIntoVarargs.mkCtor (cs : ConstraintSystem)
    (argType paramType : CType) (locator : Option ConstraintLocator) :
    ExpandArrayIntoVarargs :=
  { toAllowArgumentMismatch :=
      AllowArgumentMismatch.mkKinded cs FixKind.ExpandArrayIntoVarargs argType
        paramType locator false }

/-- Model of class ExplicitlyConstructRawRepresentable. -/
structure ExplicitlyConstructRawRepresentable where
  toAllowArgumentMismatch : AllowArgumentMismatch

/-- Constructor of ExplicitlyConstructRawRepresentable. -/
def ExplicitlyConstructRawRepresentable.mkCtor (cs : ConstraintSystem)
    (argType paramType : CType) (locator : Option ConstraintLocator) :
    ExplicitlyConstructRawRepresentable :=
  { toAllowArgumentMismatch :=
      AllowArgumentMismatch.mkKinded cs
        FixKind.ExplicitlyConstructRawRepresentable argType paramType locator
        false }

/-- Model of class UseValueTypeOfRawRepresentative. -/
structure UseValueTypeOfRawRepresentative where
  toAllowArgumentMismatch : AllowArgumentMismatch

/-- Constructor of UseValueTypeOfRawRepresentative. -/
def UseValueTypeOfRawRepresentative.mkCtor (cs : ConstraintSystem)
    (argType paramType : CType) (locator : Option ConstraintLocator) :
    UseValueTypeOfRawRepresentative :=
  { toAllowArgumentMismatch :=
      AllowArgumentMismatch.mkKinded cs
        FixKind.UseValueTypeOfRawRepresentative argType paramType locator
        false }

/-- Model of class CoerceToCheckedCast. -/
structure CoerceToCheckedCast where
  toContextualMismatch : ContextualMismatch

/-- Constructor of CoerceToCheckedCast: stores (fromType, toType) through the
kinded ContextualMismatch constructor with kind CoerceToCheckedCast. -/
def CoerceToCheckedCast.mkCtor (cs : ConstraintSystem) (fromType toType : CType)
    (locator : Option ConstraintLocator) : CoerceToCheckedCast :=
  { toContextualMismatch :=
      ContextualMismatch.mkKinded cs FixKind.CoerceToCheckedCast fromType
        toType locator false }

/-- Modelled from the spec: the body of CoerceToCheckedCast::attempt, the
fallible checked-cast probe, lives in CSFix.cpp, which is not under src/.
Per the spec a fallible factory returns an explicit absent result when the
repair does not apply and otherwise a present fix that carries the supplied
pair (fromType, toType) in that order; plausibility of the forced cast is
modelled as both types being present and structurally distinct (a value of
one type coerced to an unrelated type). Every present result goes through
the private constructor with the same argument order. -/
def CoerceToCheckedCast.attempt (cs : ConstraintSystem) (fromType toType : CType)
    (locator : Option ConstraintLocator) : Option CoerceToCheckedCast :=
  match fromType, toType with
  | some a, some b =>
    if SType.beq a b then none
    else some (CoerceToCheckedCast.mkCtor cs (some a) (some b) locator)
  | _, _ => none

/-- Sample constraint system used by closed witnesses. -/
def cs0 : ConstraintSystem := { sysId := 0 }

/-- Sample locator used by closed witnesses. -/
def loc0 : ConstraintLocator := { locId := 7 }

/-- Sample non-null locator pointer used by closed witnesses. -/
def oloc0 : Option ConstraintLocator := some loc0

/-- Sample locator builder used by closed witnesses. -/
def locB0 : ConstraintLocatorBuilder := { locbId := 3 }

/-- Sample opaque nominal type. -/
def intTy : SType := SType.named ("Int")

/-- Sample opaque nominal type. -/
def boolTy : SType := SType.named ("Bool")

/-- Sample opaque nominal type. -/
def strTy : SType := SType.named ("String")

/-- Sample member name. -/
def memberFoo : DeclName := { str := ("foo") }

/-- Sample member declaration. -/
def declFoo : ValueDecl := { name := ("foo") }

/-- Sample wrapped-property declaration whose name has no leading
underscore. -/
def varWrapped : VarDecl := { name := ("wrapped") }

/-- Sample backing-storage declaration whose name has a leading
underscore. -/
def varStorage : VarDecl := { name := ("_wrapped") }

/-- Sample generic parameter. -/
def gpT0 : GenericTypeParamType := { depth := 0, index := 0 }

/-- Sample plain positional argument of the opaque Int type. -/
def argInt : Param := { label := none, ty := intTy, isVariadic := false, isInOut := false }

/-- Sample plain positional argument of the opaque Bool type. -/
def argBool : Param := { label := none, ty := boolTy, isVariadic := false, isInOut := false }

/-- Sample single parameter whose type is a two-element tuple. -/
def tupleParam2 : Param :=
  { label := none, ty := SType.tuple [intTy, boolTy], isVariadic := false,
    isInOut := false }

/-- Sample throwing function type. -/
def throwingFn : FunctionTy := { throwsAttr := true, param := intTy, result := boolTy }

/-- Sample non-throwing function type. -/
def nonThrowingFn : FunctionTy := { throwsAttr := false, param := intTy, result := boolTy }

/-- Sample bound generic application differing from bgBoolBool exactly at
argument position 0. -/
def bgIntBool : CType := some (SType.boundGeneric ("F") [intTy, boolTy])

/-- Sample bound generic application differing from bgIntBool exactly at
argument position 0. -/
def bgBoolBool : CType := some (SType.boundGeneric ("F") [boolTy, boolTy])

/-- Claim C1: for every concrete fix variant, a freshly constructed instance
answers getKind with the documented FixKind of that variant; the kind is set
exactly once, by the ConstraintFix base constructor, and since no class in
the header exposes any mutating operation (the embedding is pure data), no
operation changes it afterward. For UnwrapOptionalBase, the factory create
yields kind UnwrapOptionalBase and createWithOptionalResult yields kind
UnwrapOptionalBaseWithOptionalResult. Variants whose constructor delegates to
the kind-less ContextualMismatch base constructor are documented under kind
ContextualMismatch. -/
theorem claim_C1_kind_fixed_at_construction :
    (∀ cs b u loc, b.isSome = true → u.isSome = true →
      (ForceOptional.mkCtor cs b u loc).map
        (fun f => f.toConstraintFix.getKind) = some FixKind.ForceOptional)
  ∧ (∀ cs m loc, (UnwrapOptionalBase.create cs m loc).map
      (fun f => f.toConstraintFix.getKind) = some FixKind.UnwrapOptionalBase)
  ∧ (∀ cs m loc, (UnwrapOptionalBase.createWithOptionalResult cs m loc).map
      (fun f => f.toConstraintFix.getKind)
        = some FixKind.UnwrapOptionalBaseWithOptionalResult)
  ∧ (∀ cs loc, (TreatRValueAsLValue.mkCtor cs loc).toConstraintFix.getKind
      = FixKind.TreatRValueAsLValue)
  ∧ (∀ cs loc t, (MarkExplicitlyEscaping.mkCtor cs loc t).toConstraintFix.getKind
      = FixKind.ExplicitlyEscaping)
  ∧ (∀ cs ls loc, (RelabelArguments.mkCtor cs ls loc).toConstraintFix.getKind
      = FixKind.RelabelArguments)
  ∧ (∀ cs c t p loc, (MissingConformance.mkCtor cs c t p loc).toConstraintFix.getKind
      = FixKind.AddConformance)
  ∧ (∀ cs l r loc, (SkipSameTypeRequirement.mkCtor cs l r loc).toConstraintFix.getKind
      = FixKind.SkipSameTypeRequirement)
  ∧ (∀ cs l r loc, (SkipSuperclassRequirement.mkCtor cs l r loc).toConstraintFix.getKind
      = FixKind.SkipSuperclassRequirement)
  ∧ (∀ cs l r loc, (ContextualMismatch.mkBase cs l r loc).toConstraintFix.getKind
      = FixKind.ContextualMismatch)
  ∧ (∀ cs ft tt loc, ft.throwsAttr ≠ tt.throwsAttr →
      (DropThrowsAttribute.mkCtor cs ft tt loc).map
        (fun f => f.toContextualMismatch.toConstraintFix.getKind)
          = some FixKind.ContextualMismatch)
  ∧ (∀ cs l r loc,
      (ForceDowncast.mkCtor cs l r loc).toContextualMismatch.toConstraintFix.getKind
        = FixKind.ForceDowncast)
  ∧ (∀ cs l r loc,
      (AddAddressOf.mkCtor cs l r loc).toContextualMismatch.toConstraintFix.getKind
        = FixKind.AddressOf)
  ∧ (∀ cs l r loc,
      (RemoveAddressOf.mkCtor cs l r loc).toContextualMismatch.toConstraintFix.getKind
        = FixKind.RemoveAddressOf)
  ∧ (∀ cs a r ms loc, a.isBoundGenericType = true → r.isBoundGenericType = true →
      (GenericArgumentsMismatch.mkCtor cs a r ms loc).map
        (fun f => f.toContextualMismatch.toConstraintFix.getKind)
          = some FixKind.GenericArgumentsMismatch)
  ∧ (∀ cs l r loc,
      (KeyPathContextualMismatch.mkCtor cs l r loc).toContextualMismatch.toConstraintFix.getKind
        = FixKind.ContextualMismatch)
  ∧ (∀ cs loc, (AutoClosureForwarding.mkCtor cs loc).toConstraintFix.getKind
      = FixKind.AutoClosureForwarding)
  ∧ (∀ cs l r loc,
      (AllowAutoClosurePointerConversion.mkCtor cs l r loc).toContextualMismatch.toConstraintFix.getKind
        = FixKind.ContextualMismatch)
  ∧ (∀ cs t loc, (RemoveUnwrap.mkCtor cs t loc).toConstraintFix.getKind
      = FixKind.RemoveUnwrap)
  ∧ (∀ cs loc, (InsertExplicitCall.mkCtor cs loc).toConstraintFix.getKind
      = FixKind.InsertCall)
  ∧ (∀ cs w sw b wr loc,
      (UsePropertyWrapper.mkCtor cs w sw b wr loc).toConstraintFix.getKind
        = FixKind.UsePropertyWrapper)
  ∧ (∀ cs w b wr loc, (UseWrappedValue.mkCtor cs w b wr loc).toConstraintFix.getKind
      = FixKind.UseWrappedValue)
  ∧ (∀ cs loc, (UseSubscriptOperator.mkCtor cs loc).toConstraintFix.getKind
      = FixKind.UseSubscriptOperator)
  ∧ (∀ cs b m loc, (DefineMemberBasedOnUse.mkCtor cs b m loc).toConstraintFix.getKind
      = FixKind.DefineMemberBasedOnUse)
  ∧ (∀ cs b n m loc,
      (AllowMemberRefOnExistential.mkCtor cs b n m loc).toAllowInvalidMemberRef.toConstraintFix.getKind
        = FixKind.AllowMemberRefOnExistential)
  ∧ (∀ cs b m n loc, m.isSome = true →
      (AllowTypeOrInstanceMember.mkCtor cs b m n loc).map
        (fun f => f.toAllowInvalidMemberRef.toConstraintFix.getKind)
          = some FixKind.AllowTypeOrInstanceMember)
  ∧ (∀ w cs loc,
      (AllowInvalidPartialApplication.mkCtor w cs loc).toConstraintFix.getKind
        = FixKind.AllowInvalidPartialApplication)
  ∧ (∀ cs k b i sd rg loc,
      (AllowInvalidInitRef.mkCtor cs k b i sd rg loc).toConstraintFix.getKind
        = FixKind.AllowInvalidInitRef)
  ∧ (∀ cs l r loc,
      (AllowTupleTypeMismatch.mkCtor cs l r loc).toContextualMismatch.toConstraintFix.getKind
        = FixKind.AllowTupleTypeMismatch)
  ∧ (∀ cs b m n loc,
      (AllowMutatingMemberOnRValueBase.mkCtor cs b m n loc).toAllowInvalidMemberRef.toConstraintFix.getKind
        = FixKind.AllowMutatingMemberOnRValueBase)
  ∧ (∀ cs t loc,
      (AllowClosureParamDestructuring.mkCtor cs t loc).toConstraintFix.getKind
        = FixKind.AllowClosureParameterDestructuring)
  ∧ (∀ cs sa loc, (AddMissingArguments.mkCtor cs sa loc).toConstraintFix.getKind
      = FixKind.AddMissingArguments)
  ∧ (∀ cs i p bs loc,
      (MoveOutOfOrderArgument.mkCtor cs i p bs loc).toConstraintFix.getKind
        = FixKind.MoveOutOfOrderArgument)
  ∧ (∀ cs b m n loc,
      (AllowInaccessibleMember.mkCtor cs b m n loc).toAllowInvalidMemberRef.toConstraintFix.getKind
        = FixKind.AllowInaccessibleMember)
  ∧ (∀ cs loc, (AllowAnyObjectKeyPathRoot.mkCtor cs loc).toConstraintFix.getKind
      = FixKind.AllowAnyObjectKeyPathRoot)
  ∧ (∀ cs t loc,
      (TreatKeyPathSubscriptIndexAsHashable.mkCtor cs t loc).toConstraintFix.getKind
        = FixKind.TreatKeyPathSubscriptIndexAsHashable)
  ∧ (∀ cs k m loc, (AllowInvalidRefInKeyPath.mkCtor cs k m loc).toConstraintFix.getKind
      = FixKind.AllowInvalidRefInKeyPath)
  ∧ (∀ cs loc, (RemoveReturn.mkCtor cs loc).toConstraintFix.getKind
      = FixKind.RemoveReturn)
  ∧ (∀ cs s d loc,
      (CollectionElementContextualMismatch.mkCtor cs s d loc).toContextualMismatch.toConstraintFix.getKind
        = FixKind.ContextualMismatch)
  ∧ (∀ cs ps loc, ps.isEmpty = false →
      (ExplicitlySpecifyGenericArguments.mkCtor cs ps loc).map
        (fun f => f.toConstraintFix.getKind)
          = some FixKind.ExplicitlySpecifyGenericArguments)
  ∧ (∀ cs un bl loc,
      (SkipUnhandledConstructInFunctionBuilder.mkCtor cs un bl loc).toConstraintFix.getKind
        = FixKind.SkipUnhandledConstructInFunctionBuilder)
  ∧ (∀ cs t loc,
      (AllowTupleSplatForSingleParameter.mkCtor cs t loc).toConstraintFix.getKind
        = FixKind.AllowTupleSplatForSingleParameter)
  ∧ (∀ cs l r loc,
      (IgnoreContextualType.mkCtor cs l r loc).toContextualMismatch.toConstraintFix.getKind
        = FixKind.ContextualMismatch)
  ∧ (∀ cs l r loc,
      (IgnoreAssignmentDestinationType.mkCtor cs l r loc).toContextualMismatch.toConstraintFix.getKind
        = FixKind.ContextualMismatch)
  ∧ (∀ cs l r loc,
      (AllowInOutConversion.mkCtor cs l r loc).toContextualMismatch.toConstraintFix.getKind
        = FixKind.ContextualMismatch)
  ∧ (∀ cs l r loc,
      (AllowArgumentMismatch.mkCtor cs l r loc).toContextualMismatch.toConstraintFix.getKind
        = FixKind.AllowArgumentTypeMismatch)
  ∧ (∀ cs l r loc,
      (ExpandArrayIntoVarargs.mkCtor cs l r loc).toAllowArgumentMismatch.toContextualMismatch.toConstraintFix.getKind
        = FixKind.ExpandArrayIntoVarargs)
  ∧ (∀ cs l r loc,
      (ExplicitlyConstructRawRepresentable.mkCtor cs l r loc).toAllowArgumentMismatch.toContextualMismatch.toConstraintFix.getKind
        = FixKind.ExplicitlyConstructRawRepresentable)
  ∧ (∀ cs l r loc,
      (UseValueTypeOfRawRepresentative.mkCtor cs l r loc).toAllowArgumentMismatch.toContextualMismatch.toConstraintFix.getKind
        = FixKind.UseValueTypeOfRawRepresentative)
  ∧ (∀ cs l r loc,
      (CoerceToCheckedCast.mkCtor cs l r loc).toContextualMismatch.toConstraintFix.getKind
        = FixKind.CoerceToCheckedCast) := by
  refine ⟨?_, ?_, ?_, ?_, ?_, ?_, ?_, ?_, ?_, ?_, ?_, ?_, ?_, ?_, ?_, ?_, ?_,
    ?_, ?_, ?_, ?_, ?_, ?_, ?_, ?_, ?_, ?_, ?_, ?_, ?_, ?_, ?_, ?_, ?_, ?_,
    ?_, ?_, ?_, ?_, ?_, ?_, ?_, ?_, ?_, ?_, ?_, ?_, ?_, ?_, ?_⟩
  all_goals intros
  all_goals
    first
      | rfl
      | simp_all [ForceOptional.mkCtor, DropThrowsAttribute.mkCtor,
          GenericArgumentsMismatch.mkCtor, AllowTypeOrInstanceMember.mkCtor,
          ExplicitlySpecifyGenericArguments.mkCtor, AllowInvalidMemberRef.mkCtor,
          ContextualMismatch.mkBase, ContextualMismatch.mkKinded,
          ConstraintFix.mkFix, ConstraintFix.getKind]

/-- Witness for claim C1: the hypothesis-bearing conjuncts instantiated at
concrete inputs whose preconditions hold. -/
theorem claim_C1_kind_witness :
    ((ForceOptional.mkCtor cs0 (some intTy) (some boolTy) oloc0).map
      (fun f => f.toConstraintFix.getKind) = some FixKind.ForceOptional)
  ∧ ((DropThrowsAttribute.mkCtor cs0 throwingFn nonThrowingFn oloc0).map
      (fun f => f.toContextualMismatch.toConstraintFix.getKind)
        = some FixKind.ContextualMismatch)
  ∧ ((GenericArgumentsMismatch.mkCtor cs0 bgIntBool bgBoolBool [0] oloc0).map
      (fun f => f.toContextualMismatch.toConstraintFix.getKind)
        = some FixKind.GenericArgumentsMismatch)
  ∧ ((AllowTypeOrInstanceMember.mkCtor cs0 (some intTy) (some declFoo)
        memberFoo oloc0).map
      (fun f => f.toAllowInvalidMemberRef.toConstraintFix.getKind)
        = some FixKind.AllowTypeOrInstanceMember)
  ∧ ((ExplicitlySpecifyGenericArguments.mkCtor cs0 [gpT0] oloc0).map
      (fun f => f.toConstraintFix.getKind)
        = some FixKind.ExplicitlySpecifyGenericArguments) := by
  obtain ⟨h1, _, _, _, _, _, _, _, _, _, h11, _, _, _, h15, _, _, _, _, _, _,
    _, _, _, _, h26, _, _, _, _, _, _, _, _, _, _, _, _, _, h40, _⟩ :=
    claim_C1_kind_fixed_at_construction
  exact ⟨h1 cs0 (some intTy) (some boolTy) oloc0 rfl rfl,
    h11 cs0 throwingFn nonThrowingFn oloc0 (by decide),
    h15 cs0 bgIntBool bgBoolBool [0] oloc0 rfl rfl,
    h26 cs0 (some intTy) (some declFoo) memberFoo oloc0 rfl,
    h40 cs0 [gpT0] oloc0 rfl⟩

/-- Counterexample for claim C2: KeyPathContextualMismatch and
CollectionElementContextualMismatch are two distinct concrete fix types, yet
freshly created instances of both answer getKind with the same value,
FixKind.ContextualMismatch, because both constructors delegate to the
kind-less base constructor of ContextualMismatch; so the kind query does not
uniquely identify the concrete variant. -/
theorem claim_C2_counterexample :
    ((KeyPathContextualMismatch.create cs0 (some intTy) (some boolTy)
        oloc0).toContextualMismatch.toConstraintFix.getKind
      = (CollectionElementContextualMismatch.create cs0 (some strTy)
          (some intTy) oloc0).toContextualMismatch.toConstraintFix.getKind)
  ∧ ((KeyPathContextualMismatch.create cs0 (some intTy) (some boolTy)
        oloc0).toContextualMismatch.toConstraintFix.getKind
      = FixKind.ContextualMismatch) :=
  ⟨rfl, rfl⟩

/-- Amended claim C2: the FixKind enumeration itself assigns pairwise
distinct values, and concrete variants that pass an explicit kind construct
with distinct values; but the refined contextual-mismatch leaves that
delegate to the kind-less base constructor (KeyPathContextualMismatch,
CollectionElementContextualMismatch, AllowAutoClosurePointerConversion,
IgnoreContextualType, IgnoreAssignmentDestinationType, AllowInOutConversion,
and DropThrowsAttribute) all construct with FixKind.ContextualMismatch, so
getKind does not uniquely identify the concrete variant among them. -/
theorem claim_C2_amended_kinds :
    ([FixKind.ForceOptional, FixKind.UnwrapOptionalBase,
      FixKind.UnwrapOptionalBaseWithOptionalResult, FixKind.ForceDowncast,
      FixKind.AddressOf, FixKind.RemoveAddressOf, FixKind.CoerceToCheckedCast,
      FixKind.ExplicitlyEscaping, FixKind.RelabelArguments,
      FixKind.TreatRValueAsLValue, FixKind.AddConformance,
      FixKind.SkipSameTypeRequirement, FixKind.SkipSuperclassRequirement,
      FixKind.ContextualMismatch, FixKind.GenericArgumentsMismatch,
      FixKind.AutoClosureForwarding, FixKind.RemoveUnwrap, FixKind.InsertCall,
      FixKind.UsePropertyWrapper, FixKind.UseWrappedValue,
      FixKind.UseSubscriptOperator, FixKind.DefineMemberBasedOnUse,
      FixKind.AllowTypeOrInstanceMember, FixKind.AllowInvalidPartialApplication,
      FixKind.AllowInvalidInitRef, FixKind.AllowTupleTypeMismatch,
      FixKind.AllowMemberRefOnExistential, FixKind.AddMissingArguments,
      FixKind.AllowClosureParameterDestructuring, FixKind.MoveOutOfOrderArgument,
      FixKind.AllowInaccessibleMember, FixKind.AllowAnyObjectKeyPathRoot,
      FixKind.TreatKeyPathSubscriptIndexAsHashable,
      FixKind.AllowInvalidRefInKeyPath, FixKind.RemoveReturn,
      FixKind.ExplicitlySpecifyGenericArguments,
      FixKind.SkipUnhandledConstructInFunctionBuilder,
      FixKind.AllowMutatingMemberOnRValueBase,
      FixKind.AllowTupleSplatForSingleParameter,
      FixKind.AllowArgumentTypeMismatch,
      FixKind.ExplicitlyConstructRawRepresentable,
      FixKind.UseValueTypeOfRawRepresentative,
      FixKind.ExpandArrayIntoVarargs].Pairwise (· ≠ ·))
  ∧ (∀ cs l r loc,
      (KeyPathContextualMismatch.create cs l r loc).toContextualMismatch.toConstraintFix.getKind
        = FixKind.ContextualMismatch)
  ∧ (∀ cs l r loc,
      (CollectionElementContextualMismatch.create cs l r loc).toContextualMismatch.toConstraintFix.getKind
        = FixKind.ContextualMismatch)
  ∧ (∀ cs l r loc,
      (AllowAutoClosurePointerConversion.mkCtor cs l r loc).toContextualMismatch.toConstraintFix.getKind
        = FixKind.ContextualMismatch)
  ∧ (∀ cs l r loc,
      (IgnoreContextualType.mkCtor cs l r loc).toContextualMismatch.toConstraintFix.getKind
        = FixKind.ContextualMismatch)
  ∧ (∀ cs l r loc,
      (IgnoreAssignmentDestinationType.mkCtor cs l r loc).toContextualMismatch.toConstraintFix.getKind
        = FixKind.ContextualMismatch)
  ∧ (∀ cs l r loc,
      (AllowInOutConversion.mkCtor cs l r loc).toContextualMismatch.toConstraintFix.getKind
        = FixKind.ContextualMismatch) := by
  refine ⟨by decide, fun _ _ _ _ => rfl, fun _ _ _ _ => rfl, fun _ _ _ _ => rfl,
    fun _ _ _ _ => rfl, fun _ _ _ _ => rfl, fun _ _ _ _ => rfl⟩

/-- Claim C3: for every trailing-payload variant, the read-only view exposed
after construction equals the sequence supplied to the factory (same length,
same elements, same order); in this pure embedding the view is a function of
the construction arguments only, so it never changes afterward. -/
theorem claim_C3_trailing_payload_view :
    (∀ cs labels loc, (RelabelArguments.create cs labels loc).getLabels = labels)
  ∧ (∀ cs a r ms loc, a.isBoundGenericType = true → r.isBoundGenericType = true →
      (GenericArgumentsMismatch.create cs a r ms loc).map
        GenericArgumentsMismatch.getMismatches = some ms)
  ∧ (∀ cs args loc,
      (AddMissingArguments.create cs args loc).getSynthesizedArguments = args)
  ∧ (∀ cs ps loc, ps.isEmpty = false →
      (ExplicitlySpecifyGenericArguments.create cs ps loc).map
        ExplicitlySpecifyGenericArguments.getParameters = some ps) := by
  refine ⟨fun _ _ _ => rfl, ?_, fun _ _ _ => rfl, ?_⟩
  · intro cs a r ms loc ha hr
    simp [GenericArgumentsMismatch.create, GenericArgumentsMismatch.mkCtor,
      ha, hr, GenericArgumentsMismatch.getMismatches]
  · intro cs ps loc hp
    simp [ExplicitlySpecifyGenericArguments.create,
      ExplicitlySpecifyGenericArguments.mkCtor, hp,
      ExplicitlySpecifyGenericArguments.getParameters]

/-- Sample argument label. -/
def labelX : Identifier := { str := ("x") }

/-- Sample argument label. -/
def labelY : Identifier := { str := ("y") }

/-- Witness for claim C3 at concrete payload sequences. -/
theorem claim_C3_witness :
    ((RelabelArguments.create cs0 [labelX, labelY] oloc0).getLabels
      = [labelX, labelY])
  ∧ ((GenericArgumentsMismatch.create cs0 bgIntBool bgBoolBool [0] oloc0).map
      GenericArgumentsMismatch.getMismatches = some [0])
  ∧ ((AddMissingArguments.create cs0 [argInt, argBool] oloc0).getSynthesizedArguments
      = [argInt, argBool])
  ∧ ((ExplicitlySpecifyGenericArguments.create cs0 [gpT0] oloc0).map
      ExplicitlySpecifyGenericArguments.getParameters = some [gpT0]) :=
  ⟨claim_C3_trailing_payload_view.1 cs0 [labelX, labelY] oloc0,
   claim_C3_trailing_payload_view.2.1 cs0 bgIntBool bgBoolBool [0] oloc0 rfl rfl,
   claim_C3_trailing_payload_view.2.2.1 cs0 [argInt, argBool] oloc0,
   claim_C3_trailing_payload_view.2.2.2 cs0 [gpT0] oloc0 rfl⟩

/-- Claim C4: the contextual-mismatch leaves ForceDowncast, AddAddressOf,
RemoveAddressOf and CoerceToCheckedCast preserve the ordered pair
(fromType, toType): getFromType answers exactly the first type supplied to
the factory and getToType the second, never swapped. For the fallible
checked-cast probe the pair is preserved whenever a fix is present. -/
theorem claim_C4_from_to_order :
    (∀ cs l r loc,
        (ForceDowncast.create cs l r loc).toContextualMismatch.getFromType = l
      ∧ (ForceDowncast.create cs l r loc).toContextualMismatch.getToType = r)
  ∧ (∀ cs l r loc,
        (AddAddressOf.create cs l r loc).toContextualMismatch.getFromType = l
      ∧ (AddAddressOf.create cs l r loc).toContextualMismatch.getToType = r)
  ∧ (∀ cs l r loc,
        (RemoveAddressOf.create cs l r loc).toContextualMismatch.getFromType = l
      ∧ (RemoveAddressOf.create cs l r loc).toContextualMismatch.getToType = r)
  ∧ (∀ cs a b loc, SType.beq a b = false →
      (CoerceToCheckedCast.attempt cs (some a) (some b) loc).map
        (fun f => (f.toContextualMismatch.getFromType,
                   f.toContextualMismatch.getToType))
        = some (some a, some b)) := by
  refine ⟨fun _ _ _ _ => ⟨rfl, rfl⟩, fun _ _ _ _ => ⟨rfl, rfl⟩,
    fun _ _ _ _ => ⟨rfl, rfl⟩, ?_⟩
  intro cs a b loc hne
  simp [CoerceToCheckedCast.attempt, hne, CoerceToCheckedCast.mkCtor,
    ContextualMismatch.mkKinded, ConstraintFix.mkFix,
    ContextualMismatch.getFromType, ContextualMismatch.getToType]

/-- Witness for claim C4 at concrete types, including a present result of the
fallible checked-cast probe. -/
theorem claim_C4_witness :
    ((ForceDowncast.create cs0 (some intTy) (some boolTy)
        oloc0).toContextualMismatch.getFromType = some intTy)
  ∧ ((CoerceToCheckedCast.attempt cs0 (some strTy) (some intTy) oloc0).map
      (fun f => (f.toContextualMismatch.getFromType,
                 f.toContextualMismatch.getToType))
      = some (some strTy, some intTy)) :=
  ⟨(claim_C4_from_to_order.1 cs0 (some intTy) (some boolTy) oloc0).1,
   claim_C4_from_to_order.2.2.2 cs0 strTy intTy oloc0 rfl⟩

/-- Claim C5: the tuple-splat probe succeeds exactly when a single parameter
remains whose type is a tuple compatible in arity and shape with the
arguments; on success it folds the argument list to one tuple-typed element
and rebinds the binding table, reporting applicability (the returned Bool is
true exactly when the fix is NOT applicable, following the C++ convention);
in every other case, including two remaining parameters, it returns the
argument list and the binding table exactly as supplied. The last three
conjuncts are the two concrete scenarios of the spec: two positional
arguments against one 2-tuple parameter succeed and fold the argument list
to one element; two positional arguments against two parameters report
non-applicable and change nothing. -/
theorem claim_C5_tuple_splat_probe :
    (∀ cs args p bindings loc,
       p.ty.tupleArity = some args.length →
       args.all Param.isPlainPositional = true →
       AllowTupleSplatForSingleParameter.attempt cs args [p] bindings loc
         = (false, [Param.foldIntoTuple args], [[0]]))
  ∧ (∀ cs args params bindings loc,
       (AllowTupleSplatForSingleParameter.attempt cs args params bindings
          loc).1 = false →
       ∃ p, params = [p] ∧ p.ty.tupleArity = some args.length
         ∧ args.all Param.isPlainPositional = true)
  ∧ (∀ cs args params bindings loc,
       (AllowTupleSplatForSingleParameter.attempt cs args params bindings
          loc).1 = true →
       AllowTupleSplatForSingleParameter.attempt cs args params bindings loc
         = (true, args, bindings))
  ∧ (AllowTupleSplatForSingleParameter.attempt cs0 [argInt, argBool]
      [tupleParam2] [[0], [1]] locB0
      = (false, [Param.foldIntoTuple [argInt, argBool]], [[0]]))
  ∧ ((AllowTupleSplatForSingleParameter.attempt cs0 [argInt, argBool]
      [tupleParam2] [[0], [1]] locB0).2.1.length = 1)
  ∧ (AllowTupleSplatForSingleParameter.attempt cs0 [argInt, argBool]
      [argInt, tupleParam2] [[0], [1]] locB0
      = (true, [argInt, argBool], [[0], [1]])) := by
  refine ⟨?_, ?_, ?_, rfl, rfl, rfl⟩
  · intro cs args p bindings loc h1 h2
    simp [AllowTupleSplatForSingleParameter.attempt, h1, h2]
  · intro cs args params bindings loc h
    rcases params with _ | ⟨p, _ | ⟨q, ps⟩⟩
    · simp [AllowTupleSplatForSingleParameter.attempt] at h
    · by_cases hc : (p.ty.tupleArity == some args.length
          && args.all Param.isPlainPositional) = true
      · rw [Bool.and_eq_true] at hc
        exact ⟨p, rfl, by simpa using hc.1, hc.2⟩
      · rw [Bool.not_eq_true] at hc
        simp [AllowTupleSplatForSingleParameter.attempt, hc] at h
    · simp [AllowTupleSplatForSingleParameter.attempt] at h
  · intro cs args params bindings loc h
    rcases params with _ | ⟨p, _ | ⟨q, ps⟩⟩
    · rfl
    · by_cases hc : (p.ty.tupleArity == some args.length
          && args.all Param.isPlainPositional) = true
      · exfalso
        simp [AllowTupleSplatForSingleParameter.attempt, hc] at h
      · rw [Bool.not_eq_true] at hc
        simp [AllowTupleSplatForSingleParameter.attempt, hc]
    · rfl

/-- Witness for claim C5: the success characterization and the
unchanged-on-failure conjuncts instantiated at the spec's two concrete
scenarios. -/
theorem claim_C5_witness :
    (AllowTupleSplatForSingleParameter.attempt cs0 [argInt, argBool]
      [tupleParam2] [[0], [1]] locB0
      = (false, [Param.foldIntoTuple [argInt, argBool]], [[0]]))
  ∧ (AllowTupleSplatForSingleParameter.attempt cs0 [argInt, argBool]
      [argInt, tupleParam2] [[0], [1]] locB0
      = (true, [argInt, argBool], [[0], [1]])) :=
  ⟨claim_C5_tuple_splat_probe.1 cs0 [argInt, argBool] tupleParam2
     [[0], [1]] locB0 rfl rfl,
   claim_C5_tuple_splat_probe.2.2.1 cs0 [argInt, argBool]
     [argInt, tupleParam2] [[0], [1]] locB0 rfl⟩

/-- Counterexample for claim C6: no constructor or factory in CSFix.h checks
the locator for null, so a factory call that is handed the null locator
pointer successfully constructs a fix whose getLocator answers the absent
locator. -/
theorem claim_C6_counterexample :
    (TreatRValueAsLValue.create cs0 none).toConstraintFix.getLocator = none :=
  rfl

/-- Amended claim C6: every constructor stores the supplied locator pointer
unchanged and getLocator returns exactly it, so the locator of a constructed
fix is non-null precisely when the caller supplied a non-null locator;
non-nullness is a caller obligation that no factory in CSFix.h checks or
establishes. -/
theorem claim_C6_amended_locator_passthrough :
    (∀ cs b u loc, b.isSome = true → u.isSome = true →
      (ForceOptional.mkCtor cs b u loc).map
        (fun f => f.toConstraintFix.getLocator) = some loc)
  ∧ (∀ cs m loc, (UnwrapOptionalBase.create cs m loc).map
      (fun f => f.toConstraintFix.getLocator) = some loc)
  ∧ (∀ cs m loc, (UnwrapOptionalBase.createWithOptionalResult cs m loc).map
      (fun f => f.toConstraintFix.getLocator) = some loc)
  ∧ (∀ cs loc, (TreatRValueAsLValue.mkCtor cs loc).toConstraintFix.getLocator = loc)
  ∧ (∀ cs loc t, (MarkExplicitlyEscaping.mkCtor cs loc t).toConstraintFix.getLocator = loc)
  ∧ (∀ cs ls loc, (RelabelArguments.mkCtor cs ls loc).toConstraintFix.getLocator = loc)
  ∧ (∀ cs c t p loc, (MissingConformance.mkCtor cs c t p loc).toConstraintFix.getLocator = loc)
  ∧ (∀ cs l r loc, (SkipSameTypeRequirement.mkCtor cs l r loc).toConstraintFix.getLocator = loc)
  ∧ (∀ cs l r loc, (SkipSuperclassRequirement.mkCtor cs l r loc).toConstraintFix.getLocator = loc)
  ∧ (∀ cs l r loc, (ContextualMismatch.mkBase cs l r loc).toConstraintFix.getLocator = loc)
  ∧ (∀ cs ft tt loc, ft.throwsAttr ≠ tt.throwsAttr →
      (DropThrowsAttribute.mkCtor cs ft tt loc).map
        (fun f => f.toContextualMismatch.toConstraintFix.getLocator) = some loc)
  ∧ (∀ cs l r loc,
      (ForceDowncast.mkCtor cs l r loc).toContextualMismatch.toConstraintFix.getLocator = loc)
  ∧ (∀ cs l r loc,
      (AddAddressOf.mkCtor cs l r loc).toContextualMismatch.toConstraintFix.getLocator = loc)
  ∧ (∀ cs l r loc,
      (RemoveAddressOf.mkCtor cs l r loc).toContextualMismatch.toConstraintFix.getLocator = loc)
  ∧ (∀ cs a r ms loc, a.isBoundGenericType = true → r.isBoundGenericType = true →
      (GenericArgumentsMismatch.mkCtor cs a r ms loc).map
        (fun f => f.toContextualMismatch.toConstraintFix.getLocator) = some loc)
  ∧ (∀ cs l r loc,
      (KeyPathContextualMismatch.mkCtor cs l r loc).toContextualMismatch.toConstraintFix.getLocator = loc)
  ∧ (∀ cs loc, (AutoClosureForwarding.mkCtor cs loc).toConstraintFix.getLocator = loc)
  ∧ (∀ cs l r loc,
      (AllowAutoClosurePointerConversion.mkCtor cs l r loc).toContextualMismatch.toConstraintFix.getLocator = loc)
  ∧ (∀ cs t loc, (RemoveUnwrap.mkCtor cs t loc).toConstraintFix.getLocator = loc)
  ∧ (∀ cs loc, (InsertExplicitCall.mkCtor cs loc).toConstraintFix.getLocator = loc)
  ∧ (∀ cs w sw b wr loc,
      (UsePropertyWrapper.mkCtor cs w sw b wr loc).toConstraintFix.getLocator = loc)
  ∧ (∀ cs w b wr loc, (UseWrappedValue.mkCtor cs w b wr loc).toConstraintFix.getLocator = loc)
  ∧ (∀ cs loc, (UseSubscriptOperator.mkCtor cs loc).toConstraintFix.getLocator = loc)
  ∧ (∀ cs b m loc, (DefineMemberBasedOnUse.mkCtor cs b m loc).toConstraintFix.getLocator = loc)
  ∧ (∀ cs b n m loc,
      (AllowMemberRefOnExistential.mkCtor cs b n m loc).toAllowInvalidMemberRef.toConstraintFix.getLocator = loc)
  ∧ (∀ cs b m n loc, m.isSome = true →
      (AllowTypeOrInstanceMember.mkCtor cs b m n loc).map
        (fun f => f.toAllowInvalidMemberRef.toConstraintFix.getLocator) = some loc)
  ∧ (∀ w cs loc,
      (AllowInvalidPartialApplication.mkCtor w cs loc).toConstraintFix.getLocator = loc)
  ∧ (∀ cs k b i sd rg loc,
      (AllowInvalidInitRef.mkCtor cs k b i sd rg loc).toConstraintFix.getLocator = loc)
  ∧ (∀ cs l r loc,
      (AllowTupleTypeMismatch.mkCtor cs l r loc).toContextualMismatch.toConstraintFix.getLocator = loc)
  ∧ (∀ cs b m n loc,
      (AllowMutatingMemberOnRValueBase.mkCtor cs b m n loc).toAllowInvalidMemberRef.toConstraintFix.getLocator = loc)
  ∧ (∀ cs t loc,
      (AllowClosureParamDestructuring.mkCtor cs t loc).toConstraintFix.getLocator = loc)
  ∧ (∀ cs sa loc, (AddMissingArguments.mkCtor cs sa loc).toConstraintFix.getLocator = loc)
  ∧ (∀ cs i p bs loc,
      (MoveOutOfOrderArgument.mkCtor cs i p bs loc).toConstraintFix.getLocator = loc)
  ∧ (∀ cs b m n loc,
      (AllowInaccessibleMember.mkCtor cs b m n loc).toAllowInvalidMemberRef.toConstraintFix.getLocator = loc)
  ∧ (∀ cs loc, (AllowAnyObjectKeyPathRoot.mkCtor cs loc).toConstraintFix.getLocator = loc)
  ∧ (∀ cs t loc,
      (TreatKeyPathSubscriptIndexAsHashable.mkCtor cs t loc).toConstraintFix.getLocator = loc)
  ∧ (∀ cs k m loc,
      (AllowInvalidRefInKeyPath.mkCtor cs k m loc).toConstraintFix.getLocator = loc)
  ∧ (∀ cs loc, (RemoveReturn.mkCtor cs loc).toConstraintFix.getLocator = loc)
  ∧ (∀ cs s d loc,
      (CollectionElementContextualMismatch.mkCtor cs s d loc).toContextualMismatch.toConstraintFix.getLocator = loc)
  ∧ (∀ cs ps loc, ps.isEmpty = false →
      (ExplicitlySpecifyGenericArguments.mkCtor cs ps loc).map
        (fun f => f.toConstraintFix.getLocator) = some loc)
  ∧ (∀ cs un bl loc,
      (SkipUnhandledConstructInFunctionBuilder.mkCtor cs un bl loc).toConstraintFix.getLocator = loc)
  ∧ (∀ cs t loc,
      (AllowTupleSplatForSingleParameter.mkCtor cs t loc).toConstraintFix.getLocator = loc)
  ∧ (∀ cs l r loc,
      (IgnoreContextualType.mkCtor cs l r loc).toContextualMismatch.toConstraintFix.getLocator = loc)
  ∧ (∀ cs l r loc,
      (IgnoreAssignmentDestinationType.mkCtor cs l r loc).toContextualMismatch.toConstraintFix.getLocator = loc)
  ∧ (∀ cs l r loc,
      (AllowInOutConversion.mkCtor cs l r loc).toContextualMismatch.toConstraintFix.getLocator = loc)
  ∧ (∀ cs l r loc,
      (AllowArgumentMismatch.mkCtor cs l r loc).toContextualMismatch.toConstraintFix.getLocator = loc)
  ∧ (∀ cs l r loc,
      (ExpandArrayIntoVarargs.mkCtor cs l r loc).toAllowArgumentMismatch.toContextualMismatch.toConstraintFix.getLocator = loc)
  ∧ (∀ cs l r loc,
      (ExplicitlyConstructRawRepresentable.mkCtor cs l r loc).toAllowArgumentMismatch.toContextualMismatch.toConstraintFix.getLocator = loc)
  ∧ (∀ cs l r loc,
      (UseValueTypeOfRawRepresentative.mkCtor cs l r loc).toAllowArgumentMismatch.toContextualMismatch.toConstraintFix.getLocator = loc)
  ∧ (∀ cs l r loc,
      (CoerceToCheckedCast.mkCtor cs l r loc).toContextualMismatch.toConstraintFix.getLocator = loc) := by
  refine ⟨?_, ?_, ?_, ?_, ?_, ?_, ?_, ?_, ?_, ?_, ?_, ?_, ?_, ?_, ?_, ?_, ?_,
    ?_, ?_, ?_, ?_, ?_, ?_, ?_, ?_, ?_, ?_, ?_, ?_, ?_, ?_, ?_, ?_, ?_, ?_,
    ?_, ?_, ?_, ?_, ?_, ?_, ?_, ?_, ?_, ?_, ?_, ?_, ?_, ?_, ?_⟩
  all_goals intros
  all_goals
    first
      | rfl
      | simp_all [ForceOptional.mkCtor, DropThrowsAttribute.mkCtor,
          GenericArgumentsMismatch.mkCtor, AllowTypeOrInstanceMember.mkCtor,
          ExplicitlySpecifyGenericArguments.mkCtor, AllowInvalidMemberRef.mkCtor,
          ContextualMismatch.mkBase, ContextualMismatch.mkKinded,
          ConstraintFix.mkFix, ConstraintFix.getLocator]

/-- Witness for the amended claim C6: the hypothesis-bearing conjuncts
instantiated at concrete inputs with a non-null locator. -/
theorem claim_C6_witness :
    ((ForceOptional.mkCtor cs0 (some intTy) (some boolTy) oloc0).map
      (fun f => f.toConstraintFix.getLocator) = some oloc0)
  ∧ ((DropThrowsAttribute.mkCtor cs0 throwingFn nonThrowingFn oloc0).map
      (fun f => f.toContextualMismatch.toConstraintFix.getLocator) = some oloc0)
  ∧ ((GenericArgumentsMismatch.mkCtor cs0 bgIntBool bgBoolBool [0] oloc0).map
      (fun f => f.toContextualMismatch.toConstraintFix.getLocator) = some oloc0)
  ∧ ((AllowTypeOrInstanceMember.mkCtor cs0 (some intTy) (some declFoo)
        memberFoo oloc0).map
      (fun f => f.toAllowInvalidMemberRef.toConstraintFix.getLocator) = some oloc0)
  ∧ ((ExplicitlySpecifyGenericArguments.mkCtor cs0 [gpT0] oloc0).map
      (fun f => f.toConstraintFix.getLocator) = some oloc0) := by
  obtain ⟨h1, _, _, _, _, _, _, _, _, _, h11, _, _, _, h15, _, _, _, _, _, _,
    _, _, _, _, h26, _, _, _, _, _, _, _, _, _, _, _, _, _, h40, _⟩ :=
    claim_C6_amended_locator_passthrough
  exact ⟨h1 cs0 (some intTy) (some boolTy) oloc0 rfl rfl,
    h11 cs0 throwingFn nonThrowingFn oloc0 (by decide),
    h15 cs0 bgIntBool bgBoolBool [0] oloc0 rfl rfl,
    h26 cs0 (some intTy) (some declFoo) memberFoo oloc0 rfl,
    h40 cs0 [gpT0] oloc0 rfl⟩

/-- Counterexample for claim C7: the GenericArgumentsMismatch constructor
checks only that both types are bound generic applications and copies the
supplied index list verbatim. The two sample applications differ exactly at
argument position 0, yet construction with the list [1, 1, 0] succeeds and
getMismatches answers [1, 1, 0], which is not ascending, contains a
duplicate, and lists position 1 at which the two applications agree. -/
theorem claim_C7_counterexample :
    ((GenericArgumentsMismatch.create cs0 bgIntBool bgBoolBool [1, 1, 0]
        oloc0).map GenericArgumentsMismatch.getMismatches = some [1, 1, 0])
  ∧ ¬ ([1, 1, 0] : List Nat).Pairwise (· < ·)
  ∧ ¬ ([1, 1, 0] : List Nat).Nodup :=
  ⟨rfl, by decide, by decide⟩

/-- Amended claim C7: a GenericArgumentsMismatch fix stores exactly the index
sequence supplied to its factory, in the supplied order; the constructor
verifies only that both types are bound generic applications, so ascending
order, distinctness and restriction to actually-differing positions are
obligations of the caller that computed the sequence, and the exposed view
has these properties exactly when the supplied sequence does. -/
theorem claim_C7_amended_mismatches_as_supplied :
    ∀ cs a r ms loc, a.isBoundGenericType = true → r.isBoundGenericType = true →
      ((GenericArgumentsMismatch.create cs a r ms loc).map
          GenericArgumentsMismatch.getMismatches = some ms)
      ∧ (ms.Pairwise (· < ·) →
          (GenericArgumentsMismatch.create cs a r ms loc).map
            (fun f => decide (f.getMismatches.Pairwise (· < ·)))
            = some true) := by
  intro cs a r ms loc ha hr
  constructor
  · simp [GenericArgumentsMismatch.create, GenericArgumentsMismatch.mkCtor,
      ha, hr, GenericArgumentsMismatch.getMismatches]
  · intro hs
    simp [GenericArgumentsMismatch.create, GenericArgumentsMismatch.mkCtor,
      ha, hr, GenericArgumentsMismatch.getMismatches, hs]

/-- Witness for the amended claim C7 at a concrete ascending duplicate-free
index list. -/
theorem claim_C7_witness :
    ((GenericArgumentsMismatch.create cs0 bgIntBool bgBoolBool [0, 1]
        oloc0).map GenericArgumentsMismatch.getMismatches = some [0, 1])
  ∧ ((GenericArgumentsMismatch.create cs0 bgIntBool bgBoolBool [0, 1]
        oloc0).map
      (fun f => decide (f.getMismatches.Pairwise (· < ·))) = some true) :=
  ⟨(claim_C7_amended_mismatches_as_supplied cs0 bgIntBool bgBoolBool [0, 1]
      oloc0 rfl rfl).1,
   (claim_C7_amended_mismatches_as_supplied cs0 bgIntBool bgBoolBool [0, 1]
      oloc0 rfl rfl).2 (by decide)⟩

/-- Claim C8: each property-wrapper repair variant fixes its whole payload at
construction from the factory's arguments. UsePropertyWrapper stores the
wrapped declaration, the storage-wrapper wording flag, the base type and the
wrapper type, all four directly from the arguments. UseWrappedValue stores
the property-wrapper declaration, the base type and the wrapper type from
the arguments, and its storage-wrapper wording flag is derived at
construction time from the stored declaration (true exactly when the
declaration name has no leading underscore), hence fixed by the factory's
arguments as well. -/
theorem claim_C8_property_wrapper_payload :
    (∀ cs w sw b wr loc,
        (UsePropertyWrapper.create cs w sw b wr loc).Wrapped = w
      ∧ (UsePropertyWrapper.create cs w sw b wr loc).UsingStorageWrapper = sw
      ∧ (UsePropertyWrapper.create cs w sw b wr loc).Base = b
      ∧ (UsePropertyWrapper.create cs w sw b wr loc).Wrapper = wr)
  ∧ (∀ cs p b wr loc,
        (UseWrappedValue.create cs p b wr loc).PropertyWrapper = p
      ∧ (UseWrappedValue.create cs p b wr loc).Base = b
      ∧ (UseWrappedValue.create cs p b wr loc).Wrapper = wr
      ∧ (UseWrappedValue.create cs p b wr loc).usingStorageWrapper
          = !(p.name.startsWith underscoreStr)) :=
  ⟨fun _ _ _ _ _ _ => ⟨rfl, rfl, rfl, rfl⟩,
   fun _ _ _ _ _ => ⟨rfl, rfl, rfl, rfl⟩⟩

/-- Claim C9: violated construction preconditions terminate through an
assertion instead of producing a fix (modelled as the absent result), and
under the stated preconditions the assertion branch is unreachable, so
construction always yields a fix. ForceOptional requires both the base and
the unwrapped type to be non-null; ExplicitlySpecifyGenericArguments
requires a non-empty parameter list; DropThrowsAttribute requires the two
function types to differ in their throws attribute. -/
theorem claim_C9_construction_preconditions :
    (∀ cs b u loc, b.isSome = false ∨ u.isSome = false →
        ForceOptional.create cs b u loc = none)
  ∧ (∀ cs b u loc, b.isSome = true → u.isSome = true →
        (ForceOptional.create cs b u loc).isSome = true)
  ∧ (∀ cs loc, ExplicitlySpecifyGenericArguments.create cs [] loc = none)
  ∧ (∀ cs ps loc, ps.isEmpty = false →
        (ExplicitlySpecifyGenericArguments.create cs ps loc).isSome = true)
  ∧ (∀ cs ft tt loc, ft.throwsAttr = tt.throwsAttr →
        DropThrowsAttribute.create cs ft tt loc = none)
  ∧ (∀ cs ft tt loc, ft.throwsAttr ≠ tt.throwsAttr →
        (DropThrowsAttribute.create cs ft tt loc).isSome = true) := by
  refine ⟨?_, ?_, fun _ _ => rfl, ?_, ?_, ?_⟩
  · intro cs b u loc h
    rcases h with h | h <;>
      simp [ForceOptional.create, ForceOptional.mkCtor, h]
  · intro cs b u loc hb hu
    simp [ForceOptional.create, ForceOptional.mkCtor, hb, hu]
  · intro cs ps loc hp
    simp [ExplicitlySpecifyGenericArguments.create,
      ExplicitlySpecifyGenericArguments.mkCtor, hp]
  · intro cs ft tt loc h
    simp [DropThrowsAttribute.create, DropThrowsAttribute.mkCtor, h]
  · intro cs ft tt loc h
    simp [DropThrowsAttribute.create, DropThrowsAttribute.mkCtor, h]

/-- Witness for claim C9: each precondition exercised on both sides at
concrete inputs. -/
theorem claim_C9_witness :
    (ForceOptional.create cs0 none (some intTy) oloc0 = none)
  ∧ ((ForceOptional.create cs0 (some intTy) (some boolTy) oloc0).isSome = true)
  ∧ (ExplicitlySpecifyGenericArguments.create cs0 [] oloc0 = none)
  ∧ ((ExplicitlySpecifyGenericArguments.create cs0 [gpT0] oloc0).isSome = true)
  ∧ (DropThrowsAttribute.create cs0 throwingFn throwingFn oloc0 = none)
  ∧ ((DropThrowsAttribute.create cs0 throwingFn nonThrowingFn oloc0).isSome
      = true) :=
  ⟨claim_C9_construction_preconditions.1 cs0 none (some intTy) oloc0
     (Or.inl rfl),
   claim_C9_construction_preconditions.2.1 cs0 (some intTy) (some boolTy)
     oloc0 rfl rfl,
   claim_C9_construction_preconditions.2.2.1 cs0 oloc0,
   claim_C9_construction_preconditions.2.2.2.1 cs0 [gpT0] oloc0 rfl,
   claim_C9_construction_preconditions.2.2.2.2.1 cs0 throwingFn throwingFn
     oloc0 rfl,
   claim_C9_construction_preconditions.2.2.2.2.2 cs0 throwingFn nonThrowingFn
     oloc0 (by decide)⟩

/-- Claim C10: MarkExplicitlyEscaping constructs successfully with no target
conversion type: the convertingTo parameter of both the constructor and the
create factory carries the null Type() default (modelled by createDefault),
no precondition rejects the absent value, the stored payload is then absent,
and the kind is ExplicitlyEscaping; moreover create stores whatever
convertingTo value it is given, present or absent. -/
theorem claim_C10_escaping_absent_payload :
    ∀ cs loc,
      ((MarkExplicitlyEscaping.createDefault cs loc).ConvertTo = none)
    ∧ ((MarkExplicitlyEscaping.createDefault cs loc).toConstraintFix.getKind
        = FixKind.ExplicitlyEscaping)
    ∧ (∀ t, (MarkExplicitlyEscaping.create cs loc t).ConvertTo = t) :=
  fun _ _ => ⟨rfl, rfl, fun _ => rfl⟩
